import Mathlib

/-!
Verification of the SmartOps closed-loop remediation engine against its
specification.  The Lean definitions below are shallow embeddings of the
Python sources under `src/apps/policy_engine` and `src/apps/orchestrator`:

* `apps/policy_engine/dsl/model.py` — rule model (`Condition`, `Action`, `Policy`)
* `apps/policy_engine/dsl/parser.py` — DSL grammar and transformer
* `apps/policy_engine/runtime/policy_store.py` — atomic reload
* `apps/policy_engine/runtime/evaluator.py` — signal evaluation and guardrails
* `apps/orchestrator/services/closed_loop.py` — closed-loop worker
* `apps/orchestrator/services/verification_service.py` and
  `apps/orchestrator/services/k8s_core.py` — rollout verification

Python floats appearing in data (scores, probabilities) are modelled as
rationals; wall-clock timestamps are modelled as integers supplied as
explicit parameters; mutable per-target maps are modelled as functions to
`Option`; Python exceptions are modelled with `Except`.
-/

namespace SmartOps

/-- A Python value as it occurs in DSL conditions and signal fields:
either a string or a number (ints and floats are both modelled as `ℚ`;
the comparison semantics below does not distinguish them, matching
Python's numeric comparisons). -/
inductive PyVal where
  | str (s : String)
  | num (q : ℚ)
  deriving DecidableEq, Repr

/-- A Python exception escaping the evaluator. -/
inductive PyErr where
  | attributeError (attr : String)
  | typeError (op : String)
  deriving DecidableEq, Repr

-- ---------------------------------------------------------------------
-- dsl/model.py
-- ---------------------------------------------------------------------

/-- One condition of a policy (`dsl/model.py`, class `Condition`). -/
structure Condition where
  field : String
  op : String
  value : PyVal
  deriving DecidableEq, Repr

/-- The action part of a policy (`dsl/model.py`, class `Action`):
`kind` is "restart" or "scale", `scale_replicas` is used only for "scale". -/
structure Action where
  kind : String
  scale_replicas : Option Int := none
  deriving DecidableEq, Repr

/-- One policy exactly as `dsl/model.py` declares it: name, conditions and
action.  Note that the dataclass has NO `priority` field, although
`runtime/evaluator.py` reads `p.priority`. -/
structure Policy where
  name : String
  conditions : List Condition
  action : Action
  deriving DecidableEq, Repr

-- ---------------------------------------------------------------------
-- schemas/models.py — signals and action plans
-- ---------------------------------------------------------------------

/-- One ranked cause of an RCA signal (`schemas/models.py`, `RankedCause`). -/
structure RankedCause where
  svc : String
  cause : String
  probability : ℚ
  deriving DecidableEq, Repr

/-- Anomaly signal (`schemas/models.py`, `AnomalySignal`); fields not read
by the evaluator (modelVersion, metadata) are omitted. -/
structure AnomalySignal where
  windowId : String
  service : String
  isAnomaly : Bool
  score : ℚ
  type : String
  deriving DecidableEq, Repr

/-- RCA signal (`schemas/models.py`, `RcaSignal`). -/
structure RcaSignal where
  windowId : String
  service : String
  rankedCauses : List RankedCause
  confidence : ℚ
  deriving DecidableEq, Repr

/-- The evaluator's input signal: `Union[AnomalySignal, RcaSignal]`. -/
inductive Signal where
  | anomaly (a : AnomalySignal)
  | rca (r : RcaSignal)
  deriving DecidableEq, Repr

/-- Target of an action plan (`schemas/models.py`, `Target`). -/
structure Target where
  kind : String
  namespc : String
  name : String
  deriving DecidableEq, Repr

/-- Scale payload of an action plan (`schemas/models.py`, `ScaleSpec`). -/
structure ScaleSpec where
  replicas : Int
  deriving DecidableEq, Repr

/-- Action plan produced by the evaluator (`schemas/models.py`,
`ActionPlan`); the `patch` field is never set by the evaluator and is
omitted. -/
structure ActionPlan where
  type : String
  dry_run : Bool
  verify : Bool
  target : Target
  scale : Option ScaleSpec := none
  deriving DecidableEq, Repr

/-- Audit event emitted with every evaluation
(`runtime/evaluator.py`, the `audit_event` dict).  The wall-clock field
`ts_utc` and the per-policy `matched_policies` listing are omitted;
`chosen_policy` carries name and priority. -/
structure AuditEvent where
  request_id : String
  policy_file_path : String
  policy_count_loaded : ℕ
  matched_policy_count : ℕ
  chosen_policy : Option (String × Int)
  decision_type : String
  decision_dry_run : Bool
  decision_verify : Bool
  requested_replicas : Option Int := none
  final_replicas : Option Int := none
  guardrail_reason : String
  deriving DecidableEq, Repr

-- ---------------------------------------------------------------------
-- runtime/evaluator.py — faithful embedding
-- ---------------------------------------------------------------------

/-- Embeds `MIN_REPLICAS` (`runtime/evaluator.py:18`). -/
def MIN_REPLICAS : Int := 1

/-- Embeds `MAX_REPLICAS` (`runtime/evaluator.py:19`). -/
def MAX_REPLICAS : Int := 10

/-- Embeds `RESTART_COOLDOWN_SECONDS` (`runtime/evaluator.py:20`). -/
def RESTART_COOLDOWN_SECONDS : Int := 120

/-- The per-target restart cooldown map `_last_restart_at`
(`runtime/evaluator.py:23`), keyed by "namespace/name". -/
def RestartMap : Type := String → Option Int

/-- The empty cooldown map. -/
def emptyRestartMap : RestartMap := fun _ => none

/-- Dictionary update `m[k] = v`. -/
def updateMap (m : RestartMap) (k : String) (v : Int) : RestartMap :=
  fun x => if x = k then some v else m x

/-- Embeds `_get_field_value_from_signal` (`runtime/evaluator.py:26`). -/
def get_field_value_from_signal (field : String) (signal : Signal) : Option PyVal :=
  if field = "anomaly.type" then
    match signal with
    | .anomaly a => some (.str a.type)
    | .rca _ => none
  else if field = "anomaly.score" then
    match signal with
    | .anomaly a => some (.num a.score)
    | .rca _ => none
  else if field = "rca.cause" then
    match signal with
    | .rca r =>
      match r.rankedCauses with
      | c :: _ => some (.str c.cause)
      | [] => none
    | .anomaly _ => none
  else if field = "rca.probability" then
    match signal with
    | .rca r =>
      match r.rankedCauses with
      | c :: _ => some (.num c.probability)
      | [] => none
    | .anomaly _ => none
  else none

/-- Python ordering comparison of two `PyVal`s: numbers compare
numerically, strings lexicographically, and a mixed comparison raises
`TypeError` (as `<`, `>`, `<=`, `>=` do in Python between `str` and a
number). -/
def pyOrd (op : String) (l r : PyVal) (qcmp : ℚ → ℚ → Bool)
    (scmp : String → String → Bool) : Except PyErr Bool :=
  match l, r with
  | .num a, .num b => .ok (qcmp a b)
  | .str a, .str b => .ok (scmp a b)
  | _, _ => .error (.typeError op)

/-- Embeds `_compare` (`runtime/evaluator.py:50`): `None` on the left always
compares false; `==` across types is `False` (never raises); the four order
operators raise `TypeError` on mixed types; an unknown operator yields
`False`. -/
def py_compare (op : String) (left : Option PyVal) (right : PyVal) :
    Except PyErr Bool :=
  match left with
  | none => .ok false
  | some l =>
    if op = "==" then
      .ok (decide (l = right))
    else if op = ">" then
      pyOrd op l right (fun a b => decide (a > b)) (fun a b => decide (b < a))
    else if op = "<" then
      pyOrd op l right (fun a b => decide (a < b)) (fun a b => decide (a < b))
    else if op = ">=" then
      pyOrd op l right (fun a b => decide (a ≥ b)) (fun a b => decide (¬ a < b))
    else if op = "<=" then
      pyOrd op l right (fun a b => decide (a ≤ b)) (fun a b => decide (¬ b < a))
    else
      .ok false

/-- Embeds `_policy_matches` (`runtime/evaluator.py:72`): all conditions must
hold; the loop stops at the first failing condition, and a `TypeError`
raised by a comparison propagates. -/
def policy_matches (p : Policy) (signal : Signal) : Except PyErr Bool :=
  go p.conditions
where
  go : List Condition → Except PyErr Bool
    | [] => .ok true
    | c :: rest => do
      let b ← py_compare c.op (get_field_value_from_signal c.field signal) c.value
      if b then go rest else .ok false

/-- The list comprehension `[p for p in policies if _policy_matches(p, signal)]`
(`runtime/evaluator.py:143`), evaluated left to right with exception
propagation. -/
def match_policies (policies : List Policy) (signal : Signal) :
    Except PyErr (List Policy) :=
  match policies with
  | [] => .ok []
  | p :: ps => do
    let b ← policy_matches p signal
    let rest ← match_policies ps signal
    return if b then p :: rest else rest

/-- Embeds `_select_best_policy` (`runtime/evaluator.py:84`): returns `None` for
an empty match list; for a non-empty list, `sorted` applies the key
`lambda p: (p.priority, len(p.conditions))` to every element, and since
the `Policy` dataclass of `dsl/model.py` has no `priority` attribute this
raises `AttributeError` before anything is returned. -/
def select_best_policy (matched : List Policy) :
    Except PyErr (Option Policy) :=
  match matched with
  | [] => .ok none
  | _ :: _ => .error (.attributeError "priority")

/-- The fixed target constructed by the evaluator
(`runtime/evaluator.py:139`). -/
def evaluatorTarget : Target :=
  { kind := "Deployment", namespc := "smartops-dev", name := "erp-simulator" }

/-- Embeds `evaluate_signal_with_policies` (`runtime/evaluator.py:121`), faithful
to the sources: the signal, policy list, file path and request id are the
Python arguments; `now` stands for `datetime.utcnow()` and `st` for the
module-level `_last_restart_at` map.  The result is the returned pair
`(ActionPlan, audit_event)` together with the updated cooldown map, or
the Python exception that escapes the call.  Whenever at least one policy
matched, `_select_best_policy` raises `AttributeError` (see
`select_best_policy`); the later accesses `p.priority` at lines 147 and
170 could likewise never succeed, which the `some` branch records. -/
def evaluate_signal_with_policies (signal : Signal) (policies : List Policy)
    (policy_file_path : String) (request_id : String) (_now : Int)
    (st : RestartMap) :
    Except PyErr (ActionPlan × AuditEvent × RestartMap) := do
  let matched ← match_policies policies signal
  let best ← select_best_policy matched
  match best with
  | none =>
    let plan : ActionPlan :=
      { type := "restart", dry_run := true, verify := true
        target := evaluatorTarget }
    let audit : AuditEvent :=
      { request_id := request_id
        policy_file_path := policy_file_path
        policy_count_loaded := policies.length
        matched_policy_count := matched.length
        chosen_policy := none
        decision_type := plan.type
        decision_dry_run := plan.dry_run
        decision_verify := plan.verify
        guardrail_reason := "no_match_fallback_restart_dry_run" }
    return (plan, audit, st)
  | some _ =>
    -- unreachable: `select_best_policy` never returns `some`; line 170
    -- (`chosen_priority = best.priority`) would raise the same error.
    .error (.attributeError "priority")

-- ---------------------------------------------------------------------
-- Repaired rule model: the Policy record that `runtime/evaluator.py`,
-- `dsl/grammar.py` (mandatory `"PRIORITY" NUMBER` clause) and
-- `dsl/test_parser.py` all assume, i.e. `dsl/model.py`'s Policy extended
-- with the `priority` field it omits.
-- ---------------------------------------------------------------------

/-- A policy carrying the `priority` attribute that the evaluator reads;
this is `dsl/model.py`'s `Policy` plus the field that `dsl/grammar.py`
and `runtime/evaluator.py` require but the dataclass omits. -/
structure PolicyP where
  name : String
  conditions : List Condition
  action : Action
  priority : Int
  deriving DecidableEq, Repr

/-- The sort key `lambda p: (p.priority, len(p.conditions))` of
`runtime/evaluator.py:94`, compared lexicographically. -/
def policyKeyLt (p q : PolicyP) : Bool :=
  decide (p.priority < q.priority) ||
    (decide (p.priority = q.priority) &&
      decide (p.conditions.length < q.conditions.length))

/-- Embeds `_select_best_policy` on the repaired model:
`sorted(matched, key=..., reverse=True)[0]`.  Python's sort is stable and
`reverse=True` preserves the original order of equal keys, so the result
is the first element of the list attaining the maximal key. -/
def select_best_policy_p (matched : List PolicyP) : Option PolicyP :=
  match matched with
  | [] => none
  | m :: ms => some (ms.foldl (fun acc p => if policyKeyLt acc p then p else acc) m)

/-- Embeds `policy_matches` over the repaired model (the matching code reads no
`priority`, so it is the same logic as `policy_matches`). -/
def policy_matches_p (p : PolicyP) (signal : Signal) : Except PyErr Bool :=
  go p.conditions
where
  go : List Condition → Except PyErr Bool
    | [] => .ok true
    | c :: rest => do
      let b ← py_compare c.op (get_field_value_from_signal c.field signal) c.value
      if b then go rest else .ok false

/-- The match comprehension over the repaired model. -/
def match_policies_p (policies : List PolicyP) (signal : Signal) :
    Except PyErr (List PolicyP) :=
  match policies with
  | [] => .ok []
  | p :: ps => do
    let b ← policy_matches_p p signal
    let rest ← match_policies_p ps signal
    return if b then p :: rest else rest

/-- Embeds `evaluate_signal_with_policies` over the repaired model: identical to
the faithful embedding except that `best.priority` exists, so the
restart-cooldown branch (`runtime/evaluator.py:177`), the scale-clamp
branch (lines 204-241) and the unknown-action fallback (lines 243-257)
are reachable.  Note `requested = action.scale_replicas or 1`
(line 205): both `None` and `0` fall back to `1` under Python's `or`. -/
def evaluate_signal_with_policies_p (signal : Signal)
    (policies : List PolicyP) (policy_file_path : String)
    (request_id : String) (now : Int) (st : RestartMap) :
    Except PyErr (ActionPlan × AuditEvent × RestartMap) := do
  let target := evaluatorTarget
  let target_key := target.namespc ++ "/" ++ target.name
  let matched ← match_policies_p policies signal
  let baseAudit : AuditEvent :=
    { request_id := request_id
      policy_file_path := policy_file_path
      policy_count_loaded := policies.length
      matched_policy_count := matched.length
      chosen_policy := none
      decision_type := "", decision_dry_run := false, decision_verify := false
      guardrail_reason := "" }
  match select_best_policy_p matched with
  | none =>
    let plan : ActionPlan :=
      { type := "restart", dry_run := true, verify := true, target := target }
    return (plan, { baseAudit with
      decision_type := plan.type, decision_dry_run := plan.dry_run
      decision_verify := plan.verify
      guardrail_reason := "no_match_fallback_restart_dry_run" }, st)
  | some best =>
    let chosen := some (best.name, best.priority)
    if best.action.kind = "restart" then
      match st target_key with
      | some last =>
        if now - last < RESTART_COOLDOWN_SECONDS then
          let plan : ActionPlan :=
            { type := "restart", dry_run := true, verify := true, target := target }
          return (plan, { baseAudit with
            chosen_policy := chosen, decision_type := plan.type
            decision_dry_run := plan.dry_run, decision_verify := plan.verify
            guardrail_reason := "restart_blocked_by_cooldown" }, st)
        else
          let plan : ActionPlan :=
            { type := "restart", dry_run := false, verify := true, target := target }
          return (plan, { baseAudit with
            chosen_policy := chosen, decision_type := plan.type
            decision_dry_run := plan.dry_run, decision_verify := plan.verify
            guardrail_reason := "restart_allowed" }, updateMap st target_key now)
      | none =>
        let plan : ActionPlan :=
          { type := "restart", dry_run := false, verify := true, target := target }
        return (plan, { baseAudit with
          chosen_policy := chosen, decision_type := plan.type
          decision_dry_run := plan.dry_run, decision_verify := plan.verify
          guardrail_reason := "restart_allowed" }, updateMap st target_key now)
    else if best.action.kind = "scale" then
      let requested : Int :=
        match best.action.scale_replicas with
        | none => 1
        | some v => if v = 0 then 1 else v
      let safe_replicas := max MIN_REPLICAS (min MAX_REPLICAS requested)
      let outside := requested < MIN_REPLICAS || requested > MAX_REPLICAS
      let plan : ActionPlan :=
        { type := "scale", dry_run := outside, verify := true, target := target
          scale := some { replicas := safe_replicas } }
      return (plan, { baseAudit with
        chosen_policy := chosen, decision_type := plan.type
        decision_dry_run := plan.dry_run, decision_verify := plan.verify
        requested_replicas := some requested
        final_replicas := some safe_replicas
        guardrail_reason :=
          if outside then "scale_outside_limits_clamped_dry_run"
          else "scale_within_limits" }, st)
    else
      let plan : ActionPlan :=
        { type := "restart", dry_run := true, verify := true, target := target }
      return (plan, { baseAudit with
        chosen_policy := chosen, decision_type := plan.type
        decision_dry_run := plan.dry_run, decision_verify := plan.verify
        guardrail_reason := "unknown_action_fallback_restart_dry_run" }, st)

-- ---------------------------------------------------------------------
-- dsl/parser.py — the live DSL grammar (`DSL_GRAMMAR`, lines 11-37) and
-- the transformer (`PolicyTransformer`, lines 40-88).  This grammar has
-- NO PRIORITY terminal; `dsl/grammar.py` declares a mandatory
-- `"PRIORITY" NUMBER` clause but is imported by nothing.
-- ---------------------------------------------------------------------

/-- Tokens of the grammar: the keyword/punctuation literals, the FIELD and
COMPARE terminals, `ESCAPED_STRING` and `NUMBER`. -/
inductive DslTok where
  | kwPOLICY | kwWHEN | kwAND | kwTHEN | kwRestart | kwScale | kwService
  | colon | lparen | rparen | comma
  | strTok (s : String)
  | numTok (q : ℚ) (hasDot : Bool)
  | fieldTok (f : String)
  | cmpTok (op : String)
  deriving DecidableEq, Repr

/-- Scan the inside of an `ESCAPED_STRING` after the opening quote: stop
at the first unescaped `"`; a backslash keeps the following character
verbatim, since the transformer (`dsl/parser.py:49`) strips only the
outer quotes and does not unescape.  Returns the raw inner text and the
remaining characters; `none` when the string is unterminated. -/
def scanStringInner : List Char → Option (List Char × List Char)
  | [] => none
  | '"' :: rest => some ([], rest)
  | '\\' :: x :: rest =>
    match scanStringInner rest with
    | some (inner, rem) => some ('\\' :: x :: inner, rem)
    | none => none
  | c :: rest =>
    match scanStringInner rest with
    | some (inner, rem) => some (c :: inner, rem)
    | none => none

/-- Longest run of leading decimal digits. -/
def takeDigits : List Char → List Char × List Char
  | [] => ([], [])
  | c :: rest =>
    if c.isDigit then
      let (ds, rem) := takeDigits rest
      (c :: ds, rem)
    else ([], c :: rest)

/-- Value of a digit run. -/
def digitsToNat (ds : List Char) : ℕ :=
  ds.foldl (fun acc c => acc * 10 + (c.toNat - 48)) 0

/-- Scan a `NUMBER` (Lark `common.NUMBER = FLOAT | INT`, with
`DECIMAL: INT "." INT? | "." INT`): an integer, an integer with a
fractional part, or a bare fractional part.  Exponent forms never occur
in the policy sources and are not modelled.  Returns the numeric value,
whether the literal contains a decimal point (the transformer's
`"." in text` test at `dsl/parser.py:54`), and the rest. -/
def scanNumber (cs : List Char) : Option (ℚ × Bool × List Char) :=
  match cs with
  | '.' :: rest =>
    let (ds, rem) := takeDigits rest
    if ds.isEmpty then none
    else some ((digitsToNat ds : ℚ) / (10 ^ ds.length : ℚ), true, rem)
  | _ =>
    let (ds, rem) := takeDigits cs
    if ds.isEmpty then none
    else
      match rem with
      | '.' :: rest2 =>
        let (fs, rem2) := takeDigits rest2
        some ((digitsToNat ds : ℚ) + (digitsToNat fs : ℚ) / (10 ^ fs.length : ℚ),
          true, rem2)
      | _ => some ((digitsToNat ds : ℚ), false, rem)

/-- Match a literal terminal at the head of the input. -/
def dropLit (lit : String) (cs : List Char) : Option (List Char) :=
  if lit.data.isPrefixOf cs then some (cs.drop lit.length) else none

/-- The literal terminals of `DSL_GRAMMAR`, longest first, mirroring
Lark's priority of longer literal terminals.  `PRIORITY` is absent —
it is not a terminal of this grammar. -/
def litTable : List (String × DslTok) :=
  [("rca.probability", .fieldTok "rca.probability"),
   ("anomaly.score", .fieldTok "anomaly.score"),
   ("anomaly.type", .fieldTok "anomaly.type"),
   ("rca.cause", .fieldTok "rca.cause"),
   ("restart", .kwRestart), ("service", .kwService),
   ("POLICY", .kwPOLICY), ("scale", .kwScale),
   ("WHEN", .kwWHEN), ("THEN", .kwTHEN), ("AND", .kwAND),
   (">=", .cmpTok ">="), ("<=", .cmpTok "<="), ("==", .cmpTok "=="),
   (">", .cmpTok ">"), ("<", .cmpTok "<"),
   (":", .colon), ("(", .lparen), (")", .rparen), (",", .comma)]

/-- First literal of the table matching the head of the input. -/
def scanLitGo : List (String × DslTok) → List Char → Option (DslTok × List Char)
  | [], _ => none
  | (lit, tok) :: table, cs =>
    match dropLit lit cs with
    | some rem => some (tok, rem)
    | none => scanLitGo table cs

/-- The lexer.  Whitespace and newlines are ignored (`%ignore WS`,
`%ignore NEWLINE`); a position at which no terminal matches is a lexing
error, exactly as Lark raises `UnexpectedCharacters` there.  `fuel`
bounds the recursion; every step consumes at least one character, so
`length + 1` fuel never runs out. -/
def lexDsl : ℕ → List Char → Except String (List DslTok)
  | _, [] => .ok []
  | 0, _ => .error "lexer fuel exhausted"
  | fuel + 1, c :: rest =>
    if c = ' ' ∨ c = '\t' ∨ c = '\n' ∨ c = '\r' then lexDsl fuel rest
    else if c = '"' then
      match scanStringInner rest with
      | some (inner, rem) => do
        let ts ← lexDsl fuel rem
        return .strTok (String.mk inner) :: ts
      | none => .error "unterminated string"
    else
      match scanLitGo litTable (c :: rest) with
      | some (tok, rem) => do
        let ts ← lexDsl fuel rem
        return tok :: ts
      | none =>
        match scanNumber (c :: rest) with
        | some (q, dot, rem) => do
          let ts ← lexDsl fuel rem
          return .numTok q dot :: ts
        | none => .error ("no terminal matches input at: " ++ String.mk [c])

/-- Tokenize a whole source text. -/
def tokenize (text : String) : Except String (List DslTok) :=
  lexDsl (text.length + 1) text.data

/-- Embeds `value: ESCAPED_STRING -> string | NUMBER -> number` with the
transformer rules `string` (strip quotes) and `number` (float when the
text has a dot, else int; both model as `PyVal.num`). -/
def parseValue : List DslTok → Except String (PyVal × List DslTok)
  | .strTok s :: rest => .ok (.str s, rest)
  | .numTok q _ :: rest => .ok (.num q, rest)
  | _ => .error "expected value"

/-- Embeds `condition: FIELD COMPARE value` with transformer rule `condition`. -/
def parseCondition : List DslTok → Except String (Condition × List DslTok)
  | .fieldTok f :: .cmpTok op :: rest => do
    let (v, rem) ← parseValue rest
    return (⟨f, op, v⟩, rem)
  | _ => .error "expected condition"

/-- The `("AND" condition)*` tail of `condition_list`. -/
def parseCondTail : ℕ → List DslTok → Except String (List Condition × List DslTok)
  | fuel + 1, .kwAND :: rest => do
    let (c, rem) ← parseCondition rest
    let (cs, rem2) ← parseCondTail fuel rem
    return (c :: cs, rem2)
  | _, toks => .ok ([], toks)

/-- Embeds `action: "restart" "(" "service" ")" | "scale" "(" "service" "," NUMBER ")"`
with the transformer rules `restart` and `scale`.  `scale` applies
`int(number.value)` (`dsl/parser.py:82`): on a literal containing a
decimal point, Python's `int` raises `ValueError`, failing the parse. -/
def parseAction : List DslTok → Except String (Action × List DslTok)
  | .kwRestart :: .lparen :: .kwService :: .rparen :: rest =>
    .ok ({ kind := "restart" }, rest)
  | .kwScale :: .lparen :: .kwService :: .comma :: .numTok q hasDot :: .rparen :: rest =>
    if hasDot then .error "invalid literal for int()"
    else .ok ({ kind := "scale", scale_replicas := some q.num }, rest)
  | _ => .error "expected action"

/-- Embeds `policy: "POLICY" ESCAPED_STRING ":" "WHEN" condition_list "THEN" action`
with the transformer rule `policy`.  There is no optional trailing
clause of any kind. -/
def parsePolicyOne : List DslTok → Except String (Policy × List DslTok)
  | .kwPOLICY :: .strTok name :: .colon :: .kwWHEN :: rest => do
    let (c, rem) ← parseCondition rest
    let (cs, rem2) ← parseCondTail rem.length rem
    match rem2 with
    | .kwTHEN :: rem3 => do
      let (a, rem4) ← parseAction rem3
      return ({ name := name, conditions := c :: cs, action := a }, rem4)
    | _ => .error "expected THEN"
  | _ => .error "expected POLICY"

/-- Embeds `?start: policy+` parsed to the end of input. -/
def parseProgram : ℕ → List DslTok → Except String (List Policy)
  | 0, _ => .error "parser fuel exhausted"
  | fuel + 1, toks => do
    let (p, rem) ← parsePolicyOne toks
    match rem with
    | [] => .ok [p]
    | _ => do
      let ps ← parseProgram fuel rem
      return p :: ps

/-- What `parse_policies` actually returns.  The grammar's start rule is
`?start: policy+`, and Lark's `?` prefix inlines a rule node with a
single child: a one-policy document parses to the bare `Policy` object
(the transformer's `start` callback never fires), while a document with
two or more policies parses to the Python list the `start` callback
builds — despite `parse_policies`' own `-> List[Policy]` annotation. -/
inductive ParsedPolicies where
  | single (p : Policy)
  | multiple (ps : List Policy)
  deriving DecidableEq, Repr

/-- Embeds `parse_policies` (`dsl/parser.py:97`): lex and parse a DSL
source text, or the parse error Lark would raise.  A successful parse of
exactly one policy yields the inlined bare `Policy` (see
`ParsedPolicies`); two or more yield the list. -/
def parse_policies (text : String) : Except String ParsedPolicies := do
  let toks ← tokenize text
  let ps ← parseProgram (toks.length + 1) toks
  match ps with
  | [p] => return .single p
  | ps => return .multiple ps

/-- Returns `true` iff an `Except` value is a success. -/
def exceptOk {ε α : Type} : Except ε α → Bool
  | .ok _ => true
  | .error _ => false

-- ---------------------------------------------------------------------
-- runtime/policy_store.py
-- ---------------------------------------------------------------------

/-- Embeds `ReloadResult` (`runtime/policy_store.py:12`). -/
structure ReloadResult where
  ok : Bool
  policy_count : ℕ
  source_path : String
  error : Option String := none
  deriving DecidableEq, Repr

/-- Embeds `PolicyStore.reload` (`runtime/policy_store.py:41`).  `source` is the
policy file's content, `none` when `os.path.exists` fails; the store
state is the `_policies` list.  On a parse error the `except` branch
reports the prior count and leaves the list untouched.  On a parse
success, `list(new_policies)` (line 63) swaps the list — unless the
parse produced the inlined bare `Policy` of a one-policy document, in
which case `list` raises `TypeError` (a `Policy` is not iterable) and
the same `except` branch reports the prior count with the `TypeError`
text, the list untouched. -/
def reload (policy_path : String) (source : Option String)
    (st : List Policy) : List Policy × ReloadResult :=
  match source with
  | none =>
    (st, { ok := false, policy_count := st.length, source_path := policy_path
           error := some ("Policy file not found: " ++ policy_path) })
  | some text =>
    match parse_policies text with
    | .ok (.multiple ps) =>
      (ps, { ok := true, policy_count := ps.length, source_path := policy_path })
    | .ok (.single _) =>
      (st, { ok := false, policy_count := st.length, source_path := policy_path
             error := some "TypeError: Policy object is not iterable" })
    | .error e =>
      (st, { ok := false, policy_count := st.length, source_path := policy_path
             error := some e })

-- ---------------------------------------------------------------------
-- utils/name_resolver.py and shared string helpers
-- ---------------------------------------------------------------------

/-- Embeds `resolve_deployment_name` (`utils/name_resolver.py:26`): a name
already carrying the canonical prefix is returned unchanged, otherwise
the prefix is prepended. -/
def resolve_deployment_name (name : String) : String :=
  if "smartops-".data.isPrefixOf name.data then name
  else "smartops-" ++ name

/-- Embeds `DEFAULT_NAMESPACE` (`services/k8s_core.py:18`, env default). -/
def DEFAULT_NAMESPACE : String := "smartops-dev"

/-- Whether `pat` occurs as a contiguous run inside `hay`. -/
def charsContains (pat : List Char) : List Char → Bool
  | [] => pat.isEmpty
  | c :: rest => pat.isPrefixOf (c :: rest) || charsContains pat rest

/-- Python's `pat in hay` substring test. -/
def strContains (hay pat : String) : Bool :=
  charsContains pat.data hay.data

/-- Python's `str.lower()`; the strings it is applied to here (RCA cause
labels, HTTP error details) are ASCII, where `Char.toLower` agrees with
Python. -/
def strLower (s : String) : String :=
  String.mk (s.data.map Char.toLower)

/-- Python's `a or b` on strings (empty string is falsy). -/
def pyOrS (a b : String) : String := if a = "" then b else a

/-- Python's `a or b` where `a` is an optional string. -/
def pyOrOptS (a : Option String) (b : String) : String :=
  match a with
  | some s => if s = "" then b else s
  | none => b

/-- Pointwise map update `m[k] = v`. -/
def updFun {α β : Type} [DecidableEq α] (m : α → β) (k : α) (v : β) :
    α → β :=
  fun x => if x = k then v else m x

-- ---------------------------------------------------------------------
-- services/closed_loop.py — signal models, guardrail state and the
-- worker's per-item logic (`ClosedLoopManager._process_item`)
-- ---------------------------------------------------------------------

/-- Embeds `AnomalyType` (`models/signal_models.py:7`). -/
inductive AnomalyType where
  | latency | error | resource | other
  deriving DecidableEq, Repr

/-- The `.value` string of an `AnomalyType`. -/
def anomalyTypeStr : AnomalyType → String
  | .latency => "latency"
  | .error => "error"
  | .resource => "resource"
  | .other => "other"

/-- Orchestrator-side anomaly signal (`models/signal_models.py:14`);
fields not read by the closed loop (tsRange, metadata, modelVersion)
are omitted. -/
structure CLAnomalySignal where
  windowId : String
  service : String
  isAnomaly : Bool
  score : ℚ
  type : AnomalyType
  deriving DecidableEq, Repr

/-- Orchestrator-side ranked cause (`models/signal_models.py:34`). -/
structure CLRankedCause where
  svc : String
  cause : String
  probability : ℚ
  deriving DecidableEq, Repr

/-- Orchestrator-side RCA signal (`models/signal_models.py:40`);
`service` is optional there. -/
structure CLRcaSignal where
  windowId : String
  service : Option String
  rankedCauses : List CLRankedCause
  confidence : ℚ
  deriving DecidableEq, Repr

/-- A queued signal, anomaly or RCA. -/
inductive CLSignal where
  | anomaly (a : CLAnomalySignal)
  | rca (r : CLRcaSignal)
  deriving DecidableEq, Repr

/-- Embeds `QueueItem` (`services/closed_loop.py:73`). -/
structure QueueItem where
  kind : String
  signal : CLSignal
  attempt : ℕ
  enqueued_at : Int
  deriving DecidableEq, Repr

/-- Embeds `ActionType` (`models/action_models.py:26`). -/
inductive ActionType where
  | scale | restart | patch
  deriving DecidableEq, Repr

/-- The `.value` string of an `ActionType`. -/
def actionTypeStr : ActionType → String
  | .scale => "scale"
  | .restart => "restart"
  | .patch => "patch"

/-- Embeds `K8sTarget` (`models/action_models.py:36`). -/
structure K8sTarget where
  kind : String
  namespc : String
  name : String
  deriving DecidableEq, Repr

/-- Embeds `ScaleParams` (`models/action_models.py:55`). -/
structure ScaleParams where
  replicas : Int
  deriving DecidableEq, Repr

/-- Embeds `ActionRequest` (`models/action_models.py:92`); the verification
timeout/interval knobs keep their defaults and are omitted.  The
`reason` strings carry the static text of the f-strings; the
interpolated windowId/score/confidence fragments are wall-clock-free
but irrelevant to every property below and are omitted. -/
structure ActionRequest where
  type : ActionType
  target : K8sTarget
  dry_run : Bool
  scale : Option ScaleParams := none
  reason : String
  verify : Bool
  deriving DecidableEq, Repr

/-- Embeds `VerificationStatus` (`models/verification_models.py:7`). -/
inductive VStatus where
  | pending | success | failed | timed_out
  deriving DecidableEq, Repr

/-- The verification summary attached to an action result, reduced to
the field the closed loop branches on. -/
structure VerRes where
  status : VStatus
  deriving DecidableEq, Repr

/-- Embeds `ActionResult` (`models/action_models.py:140`) as consumed by
`_process_item`: the `success` flag and the optional verification. -/
structure ExecResult where
  success : Bool
  verification : Option VerRes
  deriving DecidableEq, Repr

/-- An exception raised by `orchestrator_service.execute_action`, with
the fields `_is_guardrail_exception` inspects
(`services/closed_loop.py:86`). -/
structure PyExcC where
  is_http_exception : Bool
  status_code : Int
  detail : String
  deriving DecidableEq, Repr

/-- What the awaited `execute_action` call did: returned a result, or
raised. -/
inductive ExecOutcome where
  | returned (r : ExecResult)
  | raised (e : PyExcC)
  deriving DecidableEq, Repr

/-- Embeds `_is_guardrail_exception` (`services/closed_loop.py:86`): an
`HTTPException` with status 400 whose detail mentions "guardrail" or
"replica". -/
def is_guardrail_exception (e : PyExcC) : Bool :=
  e.is_http_exception && decide (e.status_code = 400) &&
    (strContains (strLower e.detail) "guardrail" ||
      strContains (strLower e.detail) "replica")

/-- Per-key guardrail state key: `(namespace, name, actionType)`. -/
def CLKey : Type := String × String × String

instance : DecidableEq CLKey := by unfold CLKey; infer_instance

/-- The mutable guardrail maps owned by `ClosedLoopManager`
(`services/closed_loop.py:152`-`158`). -/
structure CLState where
  last_action_at : CLKey → Option Int
  action_history : CLKey → Option (List Int)
  scale_history : String × String → Option (List (Int × Int))

/-- The state with all three maps empty. -/
def emptyCLState : CLState :=
  { last_action_at := fun _ => none
    action_history := fun _ => none
    scale_history := fun _ => none }

/-- The `ClosedLoopManager` configuration (`services/closed_loop.py:128`
constructor defaults and the guardrail env defaults of lines 143-149). -/
structure CLConfig where
  cooldown_seconds : Int
  max_retries : ℕ
  base_backoff_seconds : Int
  max_replicas : Int
  max_actions_per_hour : ℕ
  max_scale_increase_15m : Int
  deriving DecidableEq, Repr

/-- The default configuration: cooldown 300 s, 2 retries, 5 s base
backoff, replica cap 8, 6 actions per hour, +3 net scale increase per
15 minutes. -/
def closedLoopDefaults : CLConfig :=
  { cooldown_seconds := 300, max_retries := 2, base_backoff_seconds := 5
    max_replicas := 8, max_actions_per_hour := 6, max_scale_increase_15m := 3 }

/-- Embeds `_map_anomaly_to_action` (`services/closed_loop.py:626`): a RESOURCE
anomaly scales to current+1 (no action when the current replica count is
unreadable — the `current` parameter models `_get_current_replicas`);
every other anomaly type restarts. -/
def map_anomaly_to_action (s : CLAnomalySignal) (current : Option Int) :
    Option ActionRequest :=
  let resolved := resolve_deployment_name s.service
  let target : K8sTarget :=
    { kind := "Deployment", namespc := DEFAULT_NAMESPACE, name := resolved }
  if s.type = .resource then
    match current with
    | none => none
    | some c =>
      some { type := .scale, target := target, dry_run := false
             scale := some { replicas := c + 1 }
             reason := "Closed-loop: resource anomaly", verify := true }
  else
    some { type := .restart, target := target, dry_run := false
           reason := "Closed-loop: " ++ anomalyTypeStr s.type ++ " anomaly"
           verify := true }

/-- Embeds `_map_rca_to_action` (`services/closed_loop.py:676`): no ranked
causes means no action; a memory-leak cause restarts; a cpu/saturation
cause scales to current+1 (no action when unreadable); error-family and
config-family causes restart; anything else restarts as fallback. -/
def map_rca_to_action (s : CLRcaSignal) (current : Option Int) :
    Option ActionRequest :=
  match s.rankedCauses with
  | [] => none
  | primary :: _ =>
    let cause := strLower primary.cause
    let svc := pyOrS primary.svc (pyOrOptS s.service "erp-simulator")
    let resolved := resolve_deployment_name svc
    let target : K8sTarget :=
      { kind := "Deployment", namespc := DEFAULT_NAMESPACE, name := resolved }
    let base := "Closed-loop: RCA=" ++ cause
    if strContains cause "memory_leak" || strContains cause "memory leak" then
      some { type := .restart, target := target, dry_run := false
             reason := base, verify := true }
    else if strContains cause "cpu" || strContains cause "saturation" then
      match current with
      | none => none
      | some c =>
        some { type := .scale, target := target, dry_run := false
               scale := some { replicas := c + 1 }, reason := base
               verify := true }
    else if strContains cause "error" || strContains cause "high_error" ||
        strContains cause "high_error_rate" then
      some { type := .restart, target := target, dry_run := false
             reason := base, verify := true }
    else if strContains cause "config" || strContains cause "bad_config" ||
        strContains cause "misconfig" then
      some { type := .restart, target := target, dry_run := false
             reason := base ++ " (placeholder: restart for now)", verify := true }
    else
      some { type := .restart, target := target, dry_run := false
             reason := base ++ " (fallback mapping)", verify := true }

/-- The guardrail key of an action request
(`services/closed_loop.py:285`). -/
def clKey (req : ActionRequest) : CLKey :=
  (req.target.namespc, req.target.name, actionTypeStr req.type)

/-- Outcome of the pre-execution part of `_process_item` (steps 1, 2 and
2b: mapping, cooldown, fleet guardrails). -/
inductive GuardOutcome where
  | noAction
  | cooldownSkip
  | blocked (reason : String)
  | proceed (req : ActionRequest)
  deriving DecidableEq, Repr

/-- The hourly-history append performed once no guardrail blocked
(`services/closed_loop.py:412`-`417`). -/
def recordHourly (cfg : CLConfig) (st : CLState) (key : CLKey) (now : Int) :
    CLState :=
  if 0 < cfg.max_actions_per_hour then
    let h := (st.action_history key).getD []
    { st with action_history := updFun st.action_history key (some (h ++ [now])) }
  else st

/-- Steps 1-2b of `_process_item` (`services/closed_loop.py:246`-`419`):
map the signal to an action request (`mapCur` models the
`_get_current_replicas` read inside the mapping, `guardCur` the separate
read inside the scale guardrail), then the cooldown check, the hourly
rate guardrail (which prunes and writes back the hour window even when
it then blocks), the absolute replica cap, and the 15-minute net
scale-increase cap (whose pruning is written back only together with the
appended delta). -/
def guard_phase (cfg : CLConfig) (st : CLState) (item : QueueItem)
    (mapCur guardCur : Option Int) (now : Int) : CLState × GuardOutcome :=
  let req? :=
    match item.signal with
    | .anomaly a => map_anomaly_to_action a mapCur
    | .rca r => map_rca_to_action r mapCur
  match req? with
  | none => (st, .noAction)
  | some req =>
    let key := clKey req
    let cooldownHit :=
      match st.last_action_at key with
      | some last => decide (now - last < cfg.cooldown_seconds)
      | none => false
    if cooldownHit then (st, .cooldownSkip)
    else
      let pruned := ((st.action_history key).getD []).filter
        (fun t => now - 3600 ≤ t)
      let st1 :=
        if 0 < cfg.max_actions_per_hour then
          { st with action_history := updFun st.action_history key (some pruned) }
        else st
      if 0 < cfg.max_actions_per_hour ∧ cfg.max_actions_per_hour ≤ pruned.length then
        (st1, .blocked "max_actions_per_hour_exceeded")
      else
        match req.type, req.scale with
        | .scale, some sp =>
          match guardCur with
          | none =>
            -- cannot read current replicas: scale guardrails are skipped
            (recordHourly cfg st1 key now, .proceed req)
          | some current =>
            let desired := sp.replicas
            let delta := desired - current
            if 0 < cfg.max_replicas ∧ cfg.max_replicas < desired then
              (st1, .blocked "max_replicas_exceeded")
            else if 0 < delta ∧ 0 < cfg.max_scale_increase_15m then
              let shKey := (req.target.namespc, req.target.name)
              let shistPruned := ((st1.scale_history shKey).getD []).filter
                (fun td => now - 900 ≤ td.1)
              let netInc := (shistPruned.map (fun td => max 0 td.2)).sum
              if cfg.max_scale_increase_15m < netInc + delta then
                (st1, .blocked "max_scale_increase_15m_exceeded")
              else
                let upd := updFun st1.scale_history shKey
                  (some (shistPruned ++ [(now, delta)]))
                let st2 := { st1 with scale_history := upd }
                (recordHourly cfg st2 key now, .proceed req)
            else (recordHourly cfg st1 key now, .proceed req)
        | _, _ => (recordHourly cfg st1 key now, .proceed req)

/-- Terminal outcome of processing one queue item. -/
inductive CLOutcome where
  | noAction
  | cooldownSkip
  | guardrailBlocked (reason : String)
  | guardrailExceptionDropped
  | terminalSuccess
  | retryScheduled (delay : Int) (retry : QueueItem)
  | terminalFailure
  deriving DecidableEq, Repr

/-- Steps 6-7 of `_process_item` (`services/closed_loop.py:549`-`591`):
re-enqueue a copy with `attempt+1` and the original `enqueued_at` after a
backoff of `base_backoff * 2^attempt` seconds when retrying is allowed
and attempts remain (the default queue is unbounded, so `put_nowait`
succeeds); otherwise terminal failure. -/
def retry_or_fail (cfg : CLConfig) (st : CLState) (item : QueueItem)
    (retry_allowed : Bool) : CLState × CLOutcome :=
  if retry_allowed ∧ item.attempt < cfg.max_retries then
    (st, .retryScheduled (cfg.base_backoff_seconds * 2 ^ item.attempt)
      { kind := item.kind, signal := item.signal, attempt := item.attempt + 1
        enqueued_at := item.enqueued_at })
  else (st, .terminalFailure)

/-- Steps 3-7 of `_process_item` (`services/closed_loop.py:424`-`591`):
execute via the orchestrator (`ex` models what `execute_action` did).  A
guardrail exception is dropped permanently; any other exception is
retryable; a successful and SUCCESS-verified result records the per-key
last-action timestamp and terminates; otherwise FAILED verification
forbids a retry, TIMED_OUT or any other (or missing) verification allows
one. -/
def execute_phase (cfg : CLConfig) (st : CLState) (item : QueueItem)
    (key : CLKey) (ex : ExecOutcome) (now : Int) : CLState × CLOutcome :=
  match ex with
  | .raised e =>
    if is_guardrail_exception e then (st, .guardrailExceptionDropped)
    else retry_or_fail cfg st item true
  | .returned r =>
    let verifiedSuccess :=
      r.success && (match r.verification with
        | some v => decide (v.status = .success)
        | none => false)
    if verifiedSuccess then
      ({ st with last_action_at := updFun st.last_action_at key (some now) },
        .terminalSuccess)
    else
      let retry_allowed :=
        match r.verification with
        | some v =>
          match v.status with
          | .timed_out => true
          | .failed => false
          | _ => true
        | none => true
      retry_or_fail cfg st item retry_allowed

/-- Embeds `_process_item` (`services/closed_loop.py:246`): the guard phase
followed, when nothing blocked, by the execute phase. -/
def process_item (cfg : CLConfig) (st : CLState) (item : QueueItem)
    (mapCur guardCur : Option Int) (ex : ExecOutcome) (now : Int) :
    CLState × CLOutcome :=
  match guard_phase cfg st item mapCur guardCur now with
  | (st', .noAction) => (st', .noAction)
  | (st', .cooldownSkip) => (st', .cooldownSkip)
  | (st', .blocked r) => (st', .guardrailBlocked r)
  | (st', .proceed req) => execute_phase cfg st' item (clKey req) ex now

-- ---------------------------------------------------------------------
-- services/k8s_core.py `wait_for_deployment_rollout` and
-- services/verification_service.py `verify_deployment_rollout`
-- ---------------------------------------------------------------------

/-- A Deployment snapshot as read from the API server — the fields that
`wait_for_deployment_rollout` and `get_deployment_status` consult.
Every field is optional, as in the Kubernetes client objects. -/
structure DepSnapshot where
  generation : Option Int
  observed_generation : Option Int
  spec_replicas : Option Int
  updated_replicas : Option Int
  ready_replicas : Option Int
  available_replicas : Option Int
  deriving DecidableEq, Repr

/-- An `ApiException` (or other fault) raised while reading status;
`msg` is its `str()`. -/
structure ApiErr where
  msg : String
  deriving DecidableEq, Repr

/-- The `last_status` dict built on every poll iteration
(`services/k8s_core.py:598`): the counts defaulted with `or 0`, the two
generations kept raw. -/
structure LastObserved where
  replicas : Int
  updated_replicas : Int
  ready_replicas : Int
  available_replicas : Int
  observed_generation : Option Int
  generation : Option Int
  deriving DecidableEq, Repr

/-- Build `last_status` from a snapshot. -/
def snapLast (s : DepSnapshot) : LastObserved :=
  { replicas := s.spec_replicas.getD 0
    updated_replicas := s.updated_replicas.getD 0
    ready_replicas := s.ready_replicas.getD 0
    available_replicas := s.available_replicas.getD 0
    observed_generation := s.observed_generation
    generation := s.generation }

/-- The success condition of the rollout wait loop
(`services/k8s_core.py:626`): both generations present, observed ≥
declared, and updated/ready/available replicas all ≥ desired, where
desired is `spec.replicas or 0` of the same poll. -/
def rolloutDone (s : DepSnapshot) : Bool :=
  match s.observed_generation, s.generation with
  | some og, some g =>
    decide (g ≤ og) &&
      decide (s.spec_replicas.getD 0 ≤ s.updated_replicas.getD 0) &&
      decide (s.spec_replicas.getD 0 ≤ s.ready_replicas.getD 0) &&
      decide (s.spec_replicas.getD 0 ≤ s.available_replicas.getD 0)
  | _, _ => false

/-- Result of the rollout wait loop: the `status` string with the
`last_observed` dict. -/
inductive RolloutOutcome where
  | success (last : LastObserved)
  | timeout (last : LastObserved)
  deriving DecidableEq, Repr

/-- Embeds `wait_for_deployment_rollout` (`services/k8s_core.py:525`).  Each
element of `polls` is one loop iteration: the result of
`read_namespaced_deployment` paired with the elapsed time at that
iteration's timeout check (line 637; the random jitter only affects how
long the loop sleeps, not what it returns).  An `ApiException` raised by
a read is re-raised (line 581).  The result is `none` when the supplied
trace ends before the loop would (the real loop keeps polling). -/
def wait_for_deployment_rollout (timeout_seconds : Int) :
    List (Except ApiErr DepSnapshot × Int) →
    Option (Except ApiErr RolloutOutcome)
  | [] => none
  | (.error e, _) :: _ => some (.error e)
  | (.ok snap, elapsed) :: rest =>
    if rolloutDone snap then some (.ok (.success (snapLast snap)))
    else if timeout_seconds < elapsed then
      some (.ok (.timeout (snapLast snap)))
    else wait_for_deployment_rollout timeout_seconds rest

/-- Embeds `DeploymentVerificationRequest` (`models/verification_models.py:15`). -/
structure DeploymentVerificationRequest where
  namespc : Option String
  deployment : String
  timeout_seconds : Int
  poll_interval_seconds : Int
  expected_replicas : Option Int := none
  deriving DecidableEq, Repr

/-- Embeds `DeploymentVerificationResult` (`models/verification_models.py:47`);
the free-form `details` dict is omitted, and `namespace`/`deployment`
are plain strings because every constructed result sets them. -/
structure DeploymentVerificationResult where
  status : VStatus
  message : String
  namespc : String
  deployment : String
  desired_replicas : Option Int := none
  ready_replicas : Option Int := none
  available_replicas : Option Int := none
  deriving DecidableEq, Repr

/-- Python `str()` of an optional int, as interpolated into messages. -/
def pyStrOptInt : Option Int → String
  | none => "None"
  | some n => toString n

/-- Embeds `verify_deployment_rollout` (`services/verification_service.py:20`).
`initialRead` models the `get_deployment_status` call — only its
`replicas` key (`spec.replicas`, possibly `None`; the dict always has
the key, so the `.get(..., 0)` default is unreachable) is consulted.
Only that initial read sits inside a `try/except` (lines 46-64); a fault
raised inside the poll loop propagates out of the verifier.  `none` when
the poll trace is shorter than the loop's run. -/
def verify_deployment_rollout (req : DeploymentVerificationRequest)
    (initialRead : Except ApiErr DepSnapshot)
    (polls : List (Except ApiErr DepSnapshot × Int)) :
    Option (Except ApiErr DeploymentVerificationResult) :=
  let ns := pyOrOptS req.namespc DEFAULT_NAMESPACE
  match initialRead with
  | .error e =>
    some (.ok { status := .failed
                message := "Failed to read deployment status: " ++ e.msg
                namespc := ns, deployment := req.deployment })
  | .ok ini =>
    let desired : Option Int :=
      match req.expected_replicas with
      | some v => some v
      | none => ini.spec_replicas
    match wait_for_deployment_rollout req.timeout_seconds polls with
    | none => none
    | some (.error e) => some (.error e)
    | some (.ok (.success last)) =>
      let msg := "Deployment rollout successful. Ready replicas: " ++
        toString last.ready_replicas ++ "/" ++ pyStrOptInt desired ++ "."
      some (.ok { status := .success, message := msg
                  namespc := ns, deployment := req.deployment
                  desired_replicas := desired
                  ready_replicas := some last.ready_replicas
                  available_replicas := some last.available_replicas })
    | some (.ok (.timeout last)) =>
      let msg := "Timed out waiting for deployment rollout. " ++
        "Last observed ready replicas " ++ toString last.ready_replicas ++
        ", desired " ++ pyStrOptInt desired ++ "."
      some (.ok { status := .timed_out, message := msg
                  namespc := ns, deployment := req.deployment
                  desired_replicas := desired
                  ready_replicas := some last.ready_replicas
                  available_replicas := some last.available_replicas })

-- ---------------------------------------------------------------------
-- Reduction lemmas for the Except monad
-- ---------------------------------------------------------------------

/-- Monadic bind on a success. -/
theorem exceptBind_ok {ε α β : Type} (a : α) (f : α → Except ε β) :
    (Except.ok a : Except ε α) >>= f = f a := rfl

/-- Monadic bind on a failure. -/
theorem exceptBind_error {ε α β : Type} (e : ε) (f : α → Except ε β) :
    (Except.error e : Except ε α) >>= f = .error e := rfl

/-- Reduction lemma: `pure` is `Except.ok`. -/
theorem exceptPure_eq {ε α : Type} (a : α) :
    (pure a : Except ε α) = .ok a := rfl

-- ---------------------------------------------------------------------
-- Helper lemmas on the selection order
-- ---------------------------------------------------------------------

/-- The sort key comparison, in propositional form. -/
theorem policyKeyLt_iff (p q : PolicyP) :
    policyKeyLt p q = true ↔
      (p.priority < q.priority ∨
        (p.priority = q.priority ∧ p.conditions.length < q.conditions.length)) := by
  simp [policyKeyLt]

/-- Negated sort key comparison, in propositional form. -/
theorem policyKeyLt_eq_false_iff (p q : PolicyP) :
    policyKeyLt p q = false ↔
      ¬(p.priority < q.priority ∨
        (p.priority = q.priority ∧ p.conditions.length < q.conditions.length)) := by
  rw [← policyKeyLt_iff]
  cases policyKeyLt p q <;> simp

/-- The fold underlying `select_best_policy_p` returns an element of the
list it scans. -/
theorem foldl_best_mem (ms : List PolicyP) (m : PolicyP) :
    (List.foldl (fun acc x => if policyKeyLt acc x then x else acc) m ms) ∈ m :: ms := by
  induction ms generalizing m with
  | nil => simp
  | cons p ps ih =>
    rw [List.foldl_cons]
    by_cases h : policyKeyLt m p = true
    · rw [if_pos h]
      rcases List.mem_cons.mp (ih p) with h' | h' <;> simp [h']
    · rw [if_neg h]
      rcases List.mem_cons.mp (ih m) with h' | h' <;> simp [h']

/-- The fold underlying `select_best_policy_p` returns an element whose
key is not exceeded by any element of the list. -/
theorem foldl_best_notLt (ms : List PolicyP) : ∀ (m q : PolicyP), q ∈ m :: ms →
    policyKeyLt (List.foldl (fun acc x => if policyKeyLt acc x then x else acc) m ms) q
      = false := by
  induction ms with
  | nil =>
    intro m q hq
    simp only [List.mem_cons, List.not_mem_nil, or_false] at hq
    subst hq
    rw [List.foldl_nil, policyKeyLt_eq_false_iff]
    omega
  | cons p ps ih =>
    intro m q hq
    rw [List.foldl_cons]
    by_cases h : policyKeyLt m p = true
    · rw [if_pos h]
      rcases List.mem_cons.mp hq with rfl | hq'
      · have h1 := ih p p (by simp)
        rw [policyKeyLt_eq_false_iff] at h1 ⊢
        rw [policyKeyLt_iff] at h
        omega
      · exact ih p q hq'
    · rw [if_neg h]
      rcases List.mem_cons.mp hq with rfl | hq'
      · exact ih q q (by simp)
      · rcases List.mem_cons.mp hq' with rfl | hq''
        · have h1 := ih m m (by simp)
          have h2 : policyKeyLt m q = false := by
            cases hmp : policyKeyLt m q
            · rfl
            · exact absurd hmp h
          rw [policyKeyLt_eq_false_iff] at h1 h2 ⊢
          omega
        · exact ih m q (List.mem_cons_of_mem _ hq'')

-- ---------------------------------------------------------------------
-- Concrete fixtures for the evaluator claims.  Scores and condition
-- thresholds are whole numbers (Python floats 2.0 and 1.0) so that every
-- concrete evaluation reduces inside the kernel.
-- ---------------------------------------------------------------------

deriving instance DecidableEq for Except

/-- A latency anomaly signal with score 2. -/
def sigLatency : Signal :=
  .anomaly { windowId := "w1", service := "erp-simulator", isAnomaly := true
             score := 2, type := "latency" }

/-- A policy (as `dsl/model.py` declares it) matching any latency anomaly. -/
def polLatency : Policy :=
  { name := "restart_on_latency"
    conditions := [{ field := "anomaly.type", op := "==", value := .str "latency" }]
    action := { kind := "restart" } }

/-- A policy matching any anomaly with score above 1. -/
def polScore : Policy :=
  { name := "restart_on_high_score"
    conditions := [{ field := "anomaly.score", op := ">", value := .num 1 }]
    action := { kind := "restart" } }

/-- Priority-1 latency policy over the repaired model. -/
def pPrioLow : PolicyP :=
  { name := "low"
    conditions := [{ field := "anomaly.type", op := "==", value := .str "latency" }]
    action := { kind := "restart" }, priority := 1 }

/-- Priority-10 latency policy over the repaired model. -/
def pPrioHigh : PolicyP :=
  { name := "high"
    conditions := [{ field := "anomaly.type", op := "==", value := .str "latency" }]
    action := { kind := "scale", scale_replicas := some 3 }, priority := 10 }

/-- One-condition policy at priority 5. -/
def pOneCond : PolicyP :=
  { name := "one"
    conditions := [{ field := "anomaly.type", op := "==", value := .str "latency" }]
    action := { kind := "restart" }, priority := 5 }

/-- Two-condition policy at priority 5. -/
def pTwoCond : PolicyP :=
  { name := "two"
    conditions := [{ field := "anomaly.type", op := "==", value := .str "latency" },
                   { field := "anomaly.score", op := ">", value := .num 1 }]
    action := { kind := "scale", scale_replicas := some 3 }, priority := 5 }

/-- C1: among matching policies the evaluator is meant to choose the one
with the highest priority, ties broken by the greater number of
conditions.  The selection rule the code implements
(`_select_best_policy`'s stable descending sort by
`(p.priority, len(p.conditions))`) has exactly that property — but the
`Policy` dataclass of `dsl/model.py` has no `priority` field, so on the
code as wired any signal with at least one matching policy makes
`evaluate_signal_with_policies` raise `AttributeError` instead of
choosing anything.  Conjuncts: (1) the crash on a concrete input with
two matching policies; (2) over the repaired model (`PolicyP`), the
selected policy is a match no other match beats on priority, nor on
condition count at equal priority; (3) priorities 1 vs 10: the
priority-10 policy is chosen; (4) equal priority, 1 vs 2 conditions: the
2-condition policy is chosen. -/
theorem c1_priority_selection :
    evaluate_signal_with_policies sigLatency [polLatency, polScore]
        "policies.dsl" "req-1" 1000 emptyRestartMap
      = .error (.attributeError "priority")
    ∧ (∀ (ms : List PolicyP) (p : PolicyP), select_best_policy_p ms = some p →
        p ∈ ms ∧ ∀ q ∈ ms, q.priority < p.priority ∨
          (q.priority = p.priority ∧ q.conditions.length ≤ p.conditions.length))
    ∧ select_best_policy_p [pPrioLow, pPrioHigh] = some pPrioHigh
    ∧ select_best_policy_p [pOneCond, pTwoCond] = some pTwoCond := by
  refine ⟨by rfl, ?_, by decide, by decide⟩
  intro ms p hp
  match ms, hp with
  | m :: ms', hp =>
    simp only [select_best_policy_p, Option.some.injEq] at hp
    subst hp
    refine ⟨foldl_best_mem ms' m, ?_⟩
    intro q hq
    have h := foldl_best_notLt ms' m q hq
    rw [policyKeyLt_eq_false_iff] at h
    omega

/-- Witness for C1: the selection property applied to the concrete
priority-1/priority-10 pair. -/
theorem c1_priority_selection_witness :
    pPrioHigh ∈ [pPrioLow, pPrioHigh] ∧
      ∀ q ∈ [pPrioLow, pPrioHigh], q.priority < pPrioHigh.priority ∨
        (q.priority = pPrioHigh.priority ∧
          q.conditions.length ≤ pPrioHigh.conditions.length) :=
  c1_priority_selection.2.1 [pPrioLow, pPrioHigh] pPrioHigh (by decide)

/-- A `dsl/model.py` policy asking for 99 replicas on any latency anomaly. -/
def polScale99 : Policy :=
  { name := "scale_on_latency"
    conditions := [{ field := "anomaly.type", op := "==", value := .str "latency" }]
    action := { kind := "scale", scale_replicas := some 99 } }

/-- A repaired-model policy scaling to `r` replicas on any latency
anomaly, priority 5. -/
def scalePolicyP (r : Int) : PolicyP :=
  { name := "scale_on_latency"
    conditions := [{ field := "anomaly.type", op := "==", value := .str "latency" }]
    action := { kind := "scale", scale_replicas := some r }, priority := 5 }

/-- The fields of an evaluation result that the scale-clamp claim is
about: the plan's dry-run flag and scale spec, and the audited guardrail
reason. -/
def scaleView (x : ActionPlan × AuditEvent × RestartMap) :
    Bool × Option ScaleSpec × String :=
  (x.1.dry_run, x.1.scale, x.2.1.guardrail_reason)

/-- C4: the scale guardrail is meant to clamp the requested replicas into
`[MIN_REPLICAS, MAX_REPLICAS] = [1, 10]`, with `dry_run=true` and reason
`scale_outside_limits_clamped_dry_run` exactly when the request lay
outside.  On the code as wired the scale branch is unreachable: a
matching scale policy makes the evaluator raise `AttributeError`
(conjunct 1).  Modulo that missing field the branch behaves as claimed
for every requested `r ≠ 0` (conjunct 2), and in particular a request
for 99 replicas yields `dry_run=true` with 10 replicas (conjunct 3).
For `r = 0` — outside `[1, 10]` — Python's `requested = ... or 1`
silently turns the request into 1, so the plan is NOT a dry run
(conjunct 4), a further divergence from the claim. -/
theorem c4_scale_clamp :
    evaluate_signal_with_policies sigLatency [polScale99]
        "policies.dsl" "req-4" 1000 emptyRestartMap
      = .error (.attributeError "priority")
    ∧ (∀ r : Int, r ≠ 0 →
        (evaluate_signal_with_policies_p sigLatency [scalePolicyP r]
            "policies.dsl" "req-4" 1000 emptyRestartMap).map scaleView
          = .ok ((r < MIN_REPLICAS || r > MAX_REPLICAS : Bool),
              some { replicas := max MIN_REPLICAS (min MAX_REPLICAS r) },
              if (r < MIN_REPLICAS || r > MAX_REPLICAS : Bool)
                then "scale_outside_limits_clamped_dry_run"
                else "scale_within_limits"))
    ∧ (evaluate_signal_with_policies_p sigLatency [scalePolicyP 99]
          "policies.dsl" "req-4" 1000 emptyRestartMap).map scaleView
        = .ok (true, some { replicas := 10 }, "scale_outside_limits_clamped_dry_run")
    ∧ (evaluate_signal_with_policies_p sigLatency [scalePolicyP 0]
          "policies.dsl" "req-4" 1000 emptyRestartMap).map scaleView
        = .ok (false, some { replicas := 1 }, "scale_within_limits") := by
  refine ⟨by rfl, ?_, by decide, by decide⟩
  intro r hr
  simp [evaluate_signal_with_policies_p, match_policies_p, policy_matches_p,
    policy_matches_p.go, get_field_value_from_signal, py_compare,
    select_best_policy_p, scalePolicyP, sigLatency, scaleView, hr,
    exceptBind_ok, exceptBind_error, exceptPure_eq,
    Except.map, MIN_REPLICAS, MAX_REPLICAS]

/-- A repaired-model policy restarting on any latency anomaly, priority 5. -/
def pRestartP : PolicyP :=
  { name := "restart_on_latency"
    conditions := [{ field := "anomaly.type", op := "==", value := .str "latency" }]
    action := { kind := "restart" }, priority := 5 }

/-- The audit event of an allowed restart for `pRestartP`. -/
def c5AuditAllowed : AuditEvent :=
  { request_id := "req-5", policy_file_path := "policies.dsl"
    policy_count_loaded := 1, matched_policy_count := 1
    chosen_policy := some ("restart_on_latency", 5)
    decision_type := "restart", decision_dry_run := false
    decision_verify := true, guardrail_reason := "restart_allowed" }

/-- The audit event of a cooldown-blocked restart for `pRestartP`. -/
def c5AuditBlocked : AuditEvent :=
  { request_id := "req-5", policy_file_path := "policies.dsl"
    policy_count_loaded := 1, matched_policy_count := 1
    chosen_policy := some ("restart_on_latency", 5)
    decision_type := "restart", decision_dry_run := true
    decision_verify := true, guardrail_reason := "restart_blocked_by_cooldown" }

/-- C5: the restart cooldown is meant to let a restart-producing
evaluation outside the 120-second window execute for real and record the
timestamp, and to downgrade any further one within 120 seconds of the
recorded timestamp to `dry_run=true` with reason
`restart_blocked_by_cooldown`, leaving the timestamp unchanged.  On the
code as wired the restart branch is unreachable: a matching policy makes
the evaluator raise `AttributeError` (conjunct 2).  Modulo the missing
`priority` field the branch behaves exactly as claimed: with no recorded
timestamp the restart is live and `now` is recorded (conjunct 3); with a
recorded timestamp and `now` within the window the restart is a dry run
and the map is returned unchanged (conjunct 4); with the window expired
the restart is live again and the timestamp re-recorded (conjunct 5). -/
theorem c5_restart_cooldown :
    RESTART_COOLDOWN_SECONDS = 120
    ∧ evaluate_signal_with_policies sigLatency [polLatency]
        "policies.dsl" "req-5" 1000 emptyRestartMap
      = .error (.attributeError "priority")
    ∧ (∀ (now : Int) (st : RestartMap), st "smartops-dev/erp-simulator" = none →
        evaluate_signal_with_policies_p sigLatency [pRestartP]
            "policies.dsl" "req-5" now st
          = .ok ({ type := "restart", dry_run := false, verify := true
                   target := evaluatorTarget }, c5AuditAllowed,
              updateMap st "smartops-dev/erp-simulator" now))
    ∧ (∀ (now last : Int) (st : RestartMap),
        st "smartops-dev/erp-simulator" = some last →
        now - last < RESTART_COOLDOWN_SECONDS →
        evaluate_signal_with_policies_p sigLatency [pRestartP]
            "policies.dsl" "req-5" now st
          = .ok ({ type := "restart", dry_run := true, verify := true
                   target := evaluatorTarget }, c5AuditBlocked, st))
    ∧ (∀ (now last : Int) (st : RestartMap),
        st "smartops-dev/erp-simulator" = some last →
        ¬(now - last < RESTART_COOLDOWN_SECONDS) →
        evaluate_signal_with_policies_p sigLatency [pRestartP]
            "policies.dsl" "req-5" now st
          = .ok ({ type := "restart", dry_run := false, verify := true
                   target := evaluatorTarget }, c5AuditAllowed,
              updateMap st "smartops-dev/erp-simulator" now)) := by
  refine ⟨rfl, by rfl, ?_, ?_, ?_⟩
  · intro now st hst
    simp [evaluate_signal_with_policies_p, match_policies_p, policy_matches_p,
      policy_matches_p.go, get_field_value_from_signal, py_compare,
      select_best_policy_p, pRestartP, sigLatency, evaluatorTarget,
      exceptBind_ok, exceptBind_error, exceptPure_eq,
      c5AuditAllowed, hst]
  · intro now last st hst hcd
    simp [evaluate_signal_with_policies_p, match_policies_p, policy_matches_p,
      policy_matches_p.go, get_field_value_from_signal, py_compare,
      select_best_policy_p, pRestartP, sigLatency, evaluatorTarget,
      exceptBind_ok, exceptBind_error, exceptPure_eq,
      c5AuditBlocked, hst, hcd]
  · intro now last st hst hcd
    simp [evaluate_signal_with_policies_p, match_policies_p, policy_matches_p,
      policy_matches_p.go, get_field_value_from_signal, py_compare,
      select_best_policy_p, pRestartP, sigLatency, evaluatorTarget,
      exceptBind_ok, exceptBind_error, exceptPure_eq,
      c5AuditAllowed, hst, hcd]

/-- Witness for C5: two restart-triggering evaluations for the same
target 60 seconds apart — the first is live and records timestamp 1000,
the second is a cooldown-blocked dry run that leaves the map unchanged. -/
theorem c5_restart_cooldown_witness :
    evaluate_signal_with_policies_p sigLatency [pRestartP]
        "policies.dsl" "req-5" 1000 emptyRestartMap
      = .ok ({ type := "restart", dry_run := false, verify := true
               target := evaluatorTarget }, c5AuditAllowed,
          updateMap emptyRestartMap "smartops-dev/erp-simulator" 1000)
    ∧ evaluate_signal_with_policies_p sigLatency [pRestartP]
        "policies.dsl" "req-5" 1060
        (updateMap emptyRestartMap "smartops-dev/erp-simulator" 1000)
      = .ok ({ type := "restart", dry_run := true, verify := true
               target := evaluatorTarget }, c5AuditBlocked,
          updateMap emptyRestartMap "smartops-dev/erp-simulator" 1000) :=
  ⟨c5_restart_cooldown.2.2.1 1000 emptyRestartMap rfl,
   c5_restart_cooldown.2.2.2.1 1060 1000
     (updateMap emptyRestartMap "smartops-dev/erp-simulator" 1000)
     (by simp [updateMap, emptyRestartMap]) (by decide)⟩

/-- The safe fallback plan of the evaluator's no-match branch. -/
def fallbackPlan : ActionPlan :=
  { type := "restart", dry_run := true, verify := true, target := evaluatorTarget }

/-- The audit event of the no-match branch. -/
def fallbackAudit (n : ℕ) (path rid : String) : AuditEvent :=
  { request_id := rid, policy_file_path := path, policy_count_loaded := n
    matched_policy_count := 0, chosen_policy := none
    decision_type := "restart", decision_dry_run := true
    decision_verify := true
    guardrail_reason := "no_match_fallback_restart_dry_run" }

/-- C6: the evaluator is meant to return an `ActionPlan` for every
signal and policy list and never raise; when no policy matches it does
return the safe dry-run restart fallback with the auditable reason
`no_match_fallback_restart_dry_run` (conjunct 1).  But it is NOT total:
whenever at least one policy matches, the missing `priority` attribute
of `dsl/model.py`'s `Policy` makes it raise `AttributeError` (conjunct
2, at a concrete one-policy input). -/
theorem c6_total_fallback :
    (∀ (sig : Signal) (pols : List Policy) (path rid : String) (now : Int)
        (st : RestartMap),
      match_policies pols sig = .ok [] →
      evaluate_signal_with_policies sig pols path rid now st
        = .ok (fallbackPlan, fallbackAudit pols.length path rid, st))
    ∧ evaluate_signal_with_policies sigLatency [polLatency]
        "policies.dsl" "req-6" 1000 emptyRestartMap
      = .error (.attributeError "priority") := by
  constructor
  · intro sig pols path rid now st h
    simp [evaluate_signal_with_policies, h, select_best_policy,
      exceptBind_ok, exceptBind_error, exceptPure_eq,
      fallbackPlan, fallbackAudit]
  · rfl

/-- Witness for C6: a signal matching none of an empty policy list
yields the fallback plan and audit, not an exception. -/
theorem c6_total_fallback_witness :
    evaluate_signal_with_policies sigLatency [] "policies.dsl" "req-6" 1000
        emptyRestartMap
      = .ok (fallbackPlan, fallbackAudit 0 "policies.dsl" "req-6",
          emptyRestartMap) :=
  c6_total_fallback.1 sigLatency [] "policies.dsl" "req-6" 1000
    emptyRestartMap rfl

/-- C10: every `ActionPlan` the evaluator returns has `verify=true` and
the hard-coded target Deployment/smartops-dev/erp-simulator, whatever
the signal and policies — the target is never derived from the signal's
`service` field.  Conjunct 1 states it for the code as wired (whose only
returning path is the no-match fallback); conjunct 2 for the repaired
model, where the restart, scale and unknown-action branches are
reachable as well. -/
theorem c10_fixed_target :
    (∀ (sig : Signal) (pols : List Policy) (path rid : String) (now : Int)
        (st : RestartMap) (plan : ActionPlan) (audit : AuditEvent)
        (st' : RestartMap),
      evaluate_signal_with_policies sig pols path rid now st
          = .ok (plan, audit, st') →
      plan.verify = true ∧
        plan.target = { kind := "Deployment", namespc := "smartops-dev"
                        name := "erp-simulator" })
    ∧ (∀ (sig : Signal) (pols : List PolicyP) (path rid : String) (now : Int)
        (st : RestartMap) (plan : ActionPlan) (audit : AuditEvent)
        (st' : RestartMap),
      evaluate_signal_with_policies_p sig pols path rid now st
          = .ok (plan, audit, st') →
      plan.verify = true ∧
        plan.target = { kind := "Deployment", namespc := "smartops-dev"
                        name := "erp-simulator" }) := by
  constructor
  · intro sig pols path rid now st plan audit st' h
    rw [evaluate_signal_with_policies] at h
    cases hm : match_policies pols sig with
    | error e => rw [hm] at h; simp [exceptBind_error] at h
    | ok ms =>
      rw [hm] at h
      cases ms with
      | nil =>
        simp [exceptBind_ok, select_best_policy, exceptPure_eq] at h
        obtain ⟨h1, _, _⟩ := h
        subst h1
        exact ⟨rfl, rfl⟩
      | cons p ps => simp [exceptBind_ok, exceptBind_error, select_best_policy] at h
  · intro sig pols path rid now st plan audit st' h
    rw [evaluate_signal_with_policies_p] at h
    cases hm : match_policies_p pols sig with
    | error e => rw [hm] at h; simp [exceptBind_error] at h
    | ok ms =>
      rw [hm] at h
      rw [exceptBind_ok] at h
      repeat' split at h
      all_goals
        simp only [exceptPure_eq, Except.ok.injEq, Prod.mk.injEq] at h
      all_goals
        obtain ⟨h1, -, -⟩ := h
      all_goals subst h1
      all_goals exact ⟨rfl, rfl⟩

/-- Witness for C10: the fixed-target property applied to a concrete
evaluation that returns a plan. -/
theorem c10_fixed_target_witness :
    fallbackPlan.verify = true ∧
      fallbackPlan.target = { kind := "Deployment", namespc := "smartops-dev"
                              name := "erp-simulator" } :=
  c10_fixed_target.1 sigLatency [] "policies.dsl" "req-10" 1000
    emptyRestartMap fallbackPlan (fallbackAudit 0 "policies.dsl" "req-10")
    emptyRestartMap rfl

/-- Witness for C4: the clamp property applied at a request for 99
replicas. -/
theorem c4_scale_clamp_witness :
    (evaluate_signal_with_policies_p sigLatency [scalePolicyP 99]
        "policies.dsl" "req-4" 1000 emptyRestartMap).map scaleView
      = .ok (((99 : Int) < MIN_REPLICAS || (99 : Int) > MAX_REPLICAS : Bool),
          some { replicas := max MIN_REPLICAS (min MAX_REPLICAS 99) },
          if ((99 : Int) < MIN_REPLICAS || (99 : Int) > MAX_REPLICAS : Bool)
            then "scale_outside_limits_clamped_dry_run"
            else "scale_within_limits") :=
  c4_scale_clamp.2.1 99 (by decide)

-- ---------------------------------------------------------------------
-- Fixtures for the reload and grammar claims
-- ---------------------------------------------------------------------

/-- A well-formed DSL document (no PRIORITY clause — the grammar of
`dsl/parser.py` has none). -/
def goodDoc : String :=
  "POLICY \"ok\": WHEN anomaly.score >= 1 THEN scale(service, 3)"

/-- The policy `goodDoc` parses to. -/
def goodPolicy : Policy :=
  { name := "ok"
    conditions := [{ field := "anomaly.score", op := ">=", value := .num 1 }]
    action := { kind := "scale", scale_replicas := some 3 } }

/-- A malformed DSL document (the condition lacks its value). -/
def badDoc : String := "POLICY \"broken\": WHEN anomaly.score >"

/-- A well-formed two-policy document: `goodDoc` followed by a second
policy. -/
def goodDoc2 : String :=
  "POLICY \"ok\": WHEN anomaly.score >= 1 THEN scale(service, 3)\n" ++
    "POLICY \"ok2\": WHEN anomaly.score >= 2 THEN restart(service)"

/-- The second policy of `goodDoc2`. -/
def goodPolicy2 : Policy :=
  { name := "ok2"
    conditions := [{ field := "anomaly.score", op := ">=", value := .num 2 }]
    action := { kind := "restart" } }

/-- C3: the claim says a source text that parses successfully makes
`reload` swap the stored list and report `ok=true` with the new count.
That holds only for sources with two or more policies: `?start` inlines
a one-policy parse to a bare `Policy`, so for a one-policy source that
parses fine, `list(new_policies)` at `policy_store.py:63` raises
`TypeError` and `reload` reports `ok=false` with the prior list kept —
contradicting `parse_policies`' own `-> List[Policy]` annotation and the
transformer's `start` callback, written to return a list.  Conjuncts 1-2
exhibit this on the concrete one-policy `goodDoc` (its parse succeeds,
yet the empty store stays and `ok=false`); conjunct 3 proves the claimed
swap for every multi-policy success; conjunct 4 the one-policy
`TypeError` path in general; conjunct 5 the claimed parse-failure
atomicity; conjunct 6 the missing-file branch. -/
theorem c3_reload_atomic :
    reload "policies.dsl" (some goodDoc) []
      = ([], { ok := false, policy_count := 0, source_path := "policies.dsl"
               error := some "TypeError: Policy object is not iterable" })
    ∧ exceptOk (parse_policies goodDoc) = true
    ∧ (∀ (path text : String) (st ps : List Policy),
      parse_policies text = .ok (.multiple ps) →
      reload path (some text) st
        = (ps, { ok := true, policy_count := ps.length, source_path := path
                 error := none }))
    ∧ (∀ (path text : String) (st : List Policy) (p : Policy),
      parse_policies text = .ok (.single p) →
      reload path (some text) st
        = (st, { ok := false, policy_count := st.length, source_path := path
                 error := some "TypeError: Policy object is not iterable" }))
    ∧ (∀ (path text : String) (st : List Policy) (e : String),
      parse_policies text = .error e →
      reload path (some text) st
        = (st, { ok := false, policy_count := st.length, source_path := path
                 error := some e }))
    ∧ (∀ (path : String) (st : List Policy),
      reload path none st
        = (st, { ok := false, policy_count := st.length, source_path := path
                 error := some ("Policy file not found: " ++ path) })) := by
  refine ⟨by decide, by decide, ?_, ?_, ?_, ?_⟩
  · intro path text st ps h
    simp [reload, h]
  · intro path text st p h
    simp [reload, h]
  · intro path text st e h
    simp [reload, h]
  · intro path st
    simp [reload]

/-- Witness for C3: a successful two-policy reload swaps in the parsed
list; a reload from the malformed document keeps the previously loaded
policy (same count and content) while reporting the parse error. -/
theorem c3_reload_atomic_witness :
    reload "policies.dsl" (some goodDoc2) []
      = ([goodPolicy, goodPolicy2], { ok := true, policy_count := 2
                                      source_path := "policies.dsl"
                                      error := none })
    ∧ reload "policies.dsl" (some badDoc) [goodPolicy]
      = ([goodPolicy], { ok := false, policy_count := 1
                         source_path := "policies.dsl"
                         error := some "expected value" }) :=
  ⟨c3_reload_atomic.2.2.1 "policies.dsl" goodDoc2 [] [goodPolicy, goodPolicy2]
     (by decide),
   c3_reload_atomic.2.2.2.2.1 "policies.dsl" badDoc [goodPolicy]
     "expected value" (by decide)⟩

/-- A well-formed document per `dsl/test_parser.py`'s style, carrying a
trailing PRIORITY clause. -/
def prioDoc : String :=
  "POLICY \"restart_on_memory_leak\":\n  WHEN rca.cause == \"memory_leak\"\n" ++
    "  THEN restart(service)\n  PRIORITY 1\n"

/-- The same document without the PRIORITY clause. -/
def noPrioDoc : String :=
  "POLICY \"restart_on_memory_leak\":\n  WHEN rca.cause == \"memory_leak\"\n" ++
    "  THEN restart(service)\n"

/-- C9: the claim says the rule-language parser accepts an optional
trailing `PRIORITY <int>` clause and yields a policy carrying that
priority.  The grammar `parse_policies` actually uses (`DSL_GRAMMAR` in
`dsl/parser.py`) has no PRIORITY terminal at all, and the `Policy` model
has no field that could carry a priority: parsing a well-formed document
with a PRIORITY clause fails (conjunct 1) — even though the code's own
`dsl/test_parser.py` feeds exactly such documents, and `dsl/grammar.py`
declares the clause (there as mandatory).  The same document without the
clause parses fine (conjunct 2; being a one-policy document, it parses
to the `?start`-inlined bare policy). -/
theorem c9_priority_not_in_grammar :
    exceptOk (parse_policies prioDoc) = false
    ∧ parse_policies noPrioDoc
      = .ok (.single { name := "restart_on_memory_leak"
                       conditions := [{ field := "rca.cause", op := "=="
                                        value := .str "memory_leak" }]
                       action := { kind := "restart" } }) := by
  constructor
  · decide
  · decide

-- ---------------------------------------------------------------------
-- C2: closed-loop retry semantics
-- ---------------------------------------------------------------------

/-- The execution outcomes `_process_item` treats as transient: a
non-guardrail exception, a returned result with no verification
attached (executed but unverified), or a returned result whose
verification timed out. -/
def RetryableExec (ex : ExecOutcome) : Prop :=
  (∃ e, ex = .raised e ∧ is_guardrail_exception e = false)
  ∨ (∃ r, ex = .returned r ∧
      (r.verification = none ∨ r.verification = some { status := .timed_out }))

/-- C2: per queue item, a fleet-guardrail block short-circuits before
execution, so nothing is ever re-enqueued for it whatever the execution
oracle would have done (conjunct 2); a guardrail exception raised by the
execution layer is dropped permanently (conjunct 3); a verified-failure
outcome is a terminal failure for every attempt count (conjunct 4); a
transient exception, an unverified-but-executed result, or a
verified-timeout is retried exactly when `attempt < max_retries` — by
re-enqueuing a copy with `attempt+1` and the original `enqueued_at`
after a backoff of `base_backoff * 2^attempt` seconds — and otherwise is
a terminal failure (conjunct 5); the default `max_retries` is 2 and the
default base backoff 5 seconds (conjunct 1). -/
theorem c2_closed_loop_retry :
    (closedLoopDefaults.max_retries = 2 ∧
      closedLoopDefaults.base_backoff_seconds = 5)
    ∧ (∀ (cfg : CLConfig) (st : CLState) (item : QueueItem)
        (mc gc : Option Int) (ex : ExecOutcome) (now : Int) (r : String),
      (guard_phase cfg st item mc gc now).2 = .blocked r →
      process_item cfg st item mc gc ex now
        = ((guard_phase cfg st item mc gc now).1, .guardrailBlocked r))
    ∧ (∀ (cfg : CLConfig) (st : CLState) (item : QueueItem)
        (mc gc : Option Int) (now : Int) (req : ActionRequest) (e : PyExcC),
      (guard_phase cfg st item mc gc now).2 = .proceed req →
      is_guardrail_exception e = true →
      process_item cfg st item mc gc (.raised e) now
        = ((guard_phase cfg st item mc gc now).1, .guardrailExceptionDropped))
    ∧ (∀ (cfg : CLConfig) (st : CLState) (item : QueueItem)
        (mc gc : Option Int) (now : Int) (req : ActionRequest)
        (r : ExecResult),
      (guard_phase cfg st item mc gc now).2 = .proceed req →
      r.verification = some { status := .failed } →
      process_item cfg st item mc gc (.returned r) now
        = ((guard_phase cfg st item mc gc now).1, .terminalFailure))
    ∧ (∀ (cfg : CLConfig) (st : CLState) (item : QueueItem)
        (mc gc : Option Int) (now : Int) (req : ActionRequest)
        (ex : ExecOutcome),
      (guard_phase cfg st item mc gc now).2 = .proceed req →
      RetryableExec ex →
      process_item cfg st item mc gc ex now
        = ((guard_phase cfg st item mc gc now).1,
          if item.attempt < cfg.max_retries then
            .retryScheduled (cfg.base_backoff_seconds * 2 ^ item.attempt)
              { kind := item.kind, signal := item.signal
                attempt := item.attempt + 1, enqueued_at := item.enqueued_at }
          else .terminalFailure)) := by
  refine ⟨⟨rfl, rfl⟩, ?_, ?_, ?_, ?_⟩
  · intro cfg st item mc gc ex now r h
    unfold process_item
    rcases hg : guard_phase cfg st item mc gc now with ⟨s1, o⟩
    rw [hg] at h
    simp only at h
    subst h
    rfl
  · intro cfg st item mc gc now req e h hge
    unfold process_item
    rcases hg : guard_phase cfg st item mc gc now with ⟨s1, o⟩
    rw [hg] at h
    simp only at h
    subst h
    simp [execute_phase, hge]
  · intro cfg st item mc gc now req r h hv
    unfold process_item
    rcases hg : guard_phase cfg st item mc gc now with ⟨s1, o⟩
    rw [hg] at h
    simp only at h
    subst h
    simp [execute_phase, hv, retry_or_fail]
  · intro cfg st item mc gc now req ex h hre
    unfold process_item
    rcases hg : guard_phase cfg st item mc gc now with ⟨s1, o⟩
    rw [hg] at h
    simp only at h
    subst h
    rcases hre with ⟨e, rfl, hge⟩ | ⟨r, rfl, hv | hv⟩
    · simp only [execute_phase, hge, Bool.false_eq_true, if_false,
        retry_or_fail]
      by_cases hat : item.attempt < cfg.max_retries <;> simp [hat]
    · simp only [execute_phase, hv, retry_or_fail]
      by_cases hat : item.attempt < cfg.max_retries <;>
        simp [hat, Bool.and_eq_true]
    · simp only [execute_phase, hv, retry_or_fail]
      by_cases hat : item.attempt < cfg.max_retries <;>
        simp [hat, Bool.and_eq_true]

/-- The anomaly signal used in concrete closed-loop runs. -/
def c2Sig : CLAnomalySignal :=
  { windowId := "w1", service := "erp-simulator", isAnomaly := true
    score := 2, type := .latency }

/-- A first-attempt queue item carrying `c2Sig`, enqueued at time 777. -/
def c2Item : QueueItem :=
  { kind := "anomaly", signal := .anomaly c2Sig, attempt := 0
    enqueued_at := 777 }

/-- The restart request `c2Item` maps to. -/
def c2Req : ActionRequest :=
  { type := .restart
    target := { kind := "Deployment", namespc := "smartops-dev"
                name := "smartops-erp-simulator" }
    dry_run := false, reason := "Closed-loop: latency anomaly"
    verify := true }

/-- Witness for C2: a transient (non-guardrail) exception on attempt 0
with `max_retries = 2` schedules a retry after `5 * 2^0 = 5` seconds,
re-enqueuing the item with attempt 1 and the original `enqueued_at`. -/
theorem c2_closed_loop_retry_witness :
    (process_item closedLoopDefaults emptyCLState c2Item none none
        (.raised { is_http_exception := false, status_code := 500
                   detail := "boom" }) 1000).2
      = .retryScheduled 5 { kind := "anomaly", signal := .anomaly c2Sig
                            attempt := 1, enqueued_at := 777 } := by
  have h := c2_closed_loop_retry.2.2.2.2 closedLoopDefaults emptyCLState
    c2Item none none 1000 c2Req
    (.raised { is_http_exception := false, status_code := 500
               detail := "boom" })
    (by decide) (Or.inl ⟨_, rfl, by decide⟩)
  rw [h]
  decide

-- ---------------------------------------------------------------------
-- C8: guardrail-state frame effects
-- ---------------------------------------------------------------------

/-- A first-attempt queue item carrying `c2Sig`, enqueued at time 500. -/
def c8Item : QueueItem :=
  { kind := "anomaly", signal := .anomaly c2Sig, attempt := 0
    enqueued_at := 500 }

/-- A state whose only entry is a last restart of `c8Item`'s key at
time 950, so that time 1000 falls inside the 300-second cooldown. -/
def c8SkipState : CLState :=
  let m := updFun emptyCLState.last_action_at
    ("smartops-dev", "smartops-erp-simulator", "restart") (some 950)
  { emptyCLState with last_action_at := m }

/-- C8 counterexample: processing `c8Item` on empty state ends in a
transient execution exception — the action was NOT successfully
submitted (the outcome is not a verified success; it is a scheduled
retry) — yet the hourly action history for its key has recorded the
attempt: `_process_item` appends to the history before executing, not
"only on successful submission". -/
theorem c8_history_recorded_on_failed_submission :
    (process_item closedLoopDefaults emptyCLState c8Item none none
        (.raised { is_http_exception := false, status_code := 500
                   detail := "connection reset" }) 1000).2
      ≠ .terminalSuccess
    ∧ (process_item closedLoopDefaults emptyCLState c8Item none none
        (.raised { is_http_exception := false, status_code := 500
                   detail := "connection reset" }) 1000).1.action_history
          ("smartops-dev", "smartops-erp-simulator", "restart")
      = some [1000]
    ∧ emptyCLState.action_history
        ("smartops-dev", "smartops-erp-simulator", "restart") = none := by
  refine ⟨by decide, by decide, rfl⟩

/-- Case analysis of the execute phase: either the outcome is a
verified terminal success and the state gains exactly the per-key
last-action timestamp, or the outcome is not a terminal success and the
state is untouched. -/
theorem execute_phase_cases (cfg : CLConfig) (st : CLState)
    (item : QueueItem) (key : CLKey) (ex : ExecOutcome) (now : Int) :
    ((execute_phase cfg st item key ex now).2 = .terminalSuccess ∧
      (execute_phase cfg st item key ex now).1
        = { st with last_action_at := updFun st.last_action_at key (some now) })
    ∨ ((execute_phase cfg st item key ex now).2 ≠ .terminalSuccess ∧
      (execute_phase cfg st item key ex now).1 = st) := by
  cases ex with
  | raised e =>
    simp only [execute_phase]
    by_cases hge : is_guardrail_exception e = true
    · rw [if_pos hge]
      right
      exact ⟨by simp, rfl⟩
    · rw [if_neg hge]
      unfold retry_or_fail
      split
      · right; exact ⟨by simp, rfl⟩
      · right; exact ⟨by simp, rfl⟩
  | returned r =>
    simp only [execute_phase]
    by_cases hb : (r.success && match r.verification with
        | some v => decide (v.status = VStatus.success)
        | none => false) = true
    · rw [if_pos hb]
      left
      exact ⟨rfl, rfl⟩
    · rw [if_neg hb]
      unfold retry_or_fail
      split
      · right; exact ⟨by simp, rfl⟩
      · right; exact ⟨by simp, rfl⟩

/-- Guard-phase frame: a cooldown skip leaves the state unchanged. -/
theorem guard_phase_cooldown_frame (cfg : CLConfig) (st : CLState)
    (item : QueueItem) (mc gc : Option Int) (now : Int) :
    (guard_phase cfg st item mc gc now).2 = .cooldownSkip →
    (guard_phase cfg st item mc gc now).1 = st := by
  simp only [guard_phase]
  repeat' split
  all_goals intro h
  all_goals simp_all [recordHourly]

/-- Guard-phase frame: a signal that maps to no action leaves the state
unchanged. -/
theorem guard_phase_noAction_frame (cfg : CLConfig) (st : CLState)
    (item : QueueItem) (mc gc : Option Int) (now : Int) :
    (guard_phase cfg st item mc gc now).2 = .noAction →
    (guard_phase cfg st item mc gc now).1 = st := by
  simp only [guard_phase]
  repeat' split
  all_goals intro h
  all_goals simp_all [recordHourly]

/-- Guard-phase frame: a fleet-guardrail block leaves the cooldown
timestamps and the scale history unchanged and at most prunes a key's
hourly history to the trailing hour. -/
theorem guard_phase_blocked_frame (cfg : CLConfig) (st : CLState)
    (item : QueueItem) (mc gc : Option Int) (now : Int) (r : String) :
    (guard_phase cfg st item mc gc now).2 = .blocked r →
    (guard_phase cfg st item mc gc now).1.last_action_at = st.last_action_at
    ∧ (guard_phase cfg st item mc gc now).1.scale_history = st.scale_history
    ∧ ∀ k, (guard_phase cfg st item mc gc now).1.action_history k
          = st.action_history k
        ∨ (guard_phase cfg st item mc gc now).1.action_history k
          = some (((st.action_history k).getD []).filter
              (fun t => now - 3600 ≤ t)) := by
  simp only [guard_phase]
  repeat' split
  all_goals intro h
  all_goals first
    | (refine ⟨rfl, rfl, fun k => ?_⟩
       simp only [updFun]
       (try split) <;> simp_all)
    | simp_all [recordHourly]

set_option maxHeartbeats 1000000 in
/-- Guard-phase effect: an item that passes cooldown and every fleet
guardrail has `now` appended to its key's pruned hourly history. -/
theorem guard_phase_proceed_hourly (cfg : CLConfig) (st : CLState)
    (item : QueueItem) (mc gc : Option Int) (now : Int)
    (req : ActionRequest) :
    (guard_phase cfg st item mc gc now).2 = .proceed req →
    0 < cfg.max_actions_per_hour →
    (guard_phase cfg st item mc gc now).1.action_history (clKey req)
      = some ((((st.action_history (clKey req)).getD []).filter
          (fun t => now - 3600 ≤ t)) ++ [now]) := by
  simp only [guard_phase]
  repeat' split
  all_goals intro h hcap
  all_goals simp at h
  all_goals try subst h
  all_goals first
    | omega
    | (simp only [recordHourly]
       rw [if_pos hcap]
       simp [updFun])

set_option maxHeartbeats 1000000 in
/-- Guard-phase frame: a proceeding item whose request carries no scale
payload leaves the scale history unchanged. -/
theorem guard_phase_proceed_scale_frame (cfg : CLConfig) (st : CLState)
    (item : QueueItem) (mc gc : Option Int) (now : Int)
    (req : ActionRequest) :
    (guard_phase cfg st item mc gc now).2 = .proceed req →
    req.scale = none →
    (guard_phase cfg st item mc gc now).1.scale_history
      = st.scale_history := by
  simp only [guard_phase]
  repeat' split
  all_goals intro h hsc
  all_goals simp at h
  all_goals try subst h
  all_goals first
    | (simp only [recordHourly]; split <;> rfl)
    | simp_all

/-- Execute-phase frame: the per-key last-action timestamp is recorded
exactly on a verified terminal success; no other outcome touches the
state. -/
theorem execute_phase_frame (cfg : CLConfig) (st : CLState)
    (item : QueueItem) (key : CLKey) (ex : ExecOutcome) (now : Int) :
    ((execute_phase cfg st item key ex now).2 = .terminalSuccess →
      (execute_phase cfg st item key ex now).1
        = { st with last_action_at := updFun st.last_action_at key (some now) })
    ∧ ((execute_phase cfg st item key ex now).2 ≠ .terminalSuccess →
      (execute_phase cfg st item key ex now).1 = st) := by
  rcases execute_phase_cases cfg st item key ex now with ⟨h2, h1⟩ | ⟨h2, h1⟩ <;>
    constructor <;> intro hh <;> simp_all

/-- C8 (amended): a cooldown skip or a no-action mapping leaves the
whole guardrail state unchanged (conjuncts 1-2); a fleet-guardrail block
leaves the cooldown timestamps and the scale history unchanged and at
most replaces a key's hourly history by its pruned-to-the-hour window
(conjunct 3); an item that passes cooldown and all fleet guardrails has
`now` appended to its key's pruned hourly history before execution
(conjunct 4) and, when its request carries no scale payload, leaves the
scale history unchanged (conjunct 5); the execution phase touches no
history, and records the per-key last-action timestamp exactly on a
successfully-submitted and SUCCESS-verified outcome, leaving the state
untouched otherwise (conjunct 6). -/
theorem c8_guardrail_state_frame :
    (∀ (cfg : CLConfig) (st : CLState) (item : QueueItem)
        (mc gc : Option Int) (now : Int),
      (guard_phase cfg st item mc gc now).2 = .cooldownSkip →
      (guard_phase cfg st item mc gc now).1 = st)
    ∧ (∀ (cfg : CLConfig) (st : CLState) (item : QueueItem)
        (mc gc : Option Int) (now : Int),
      (guard_phase cfg st item mc gc now).2 = .noAction →
      (guard_phase cfg st item mc gc now).1 = st)
    ∧ (∀ (cfg : CLConfig) (st : CLState) (item : QueueItem)
        (mc gc : Option Int) (now : Int) (r : String),
      (guard_phase cfg st item mc gc now).2 = .blocked r →
      (guard_phase cfg st item mc gc now).1.last_action_at = st.last_action_at
      ∧ (guard_phase cfg st item mc gc now).1.scale_history = st.scale_history
      ∧ ∀ k, (guard_phase cfg st item mc gc now).1.action_history k
            = st.action_history k
          ∨ (guard_phase cfg st item mc gc now).1.action_history k
            = some (((st.action_history k).getD []).filter
                (fun t => now - 3600 ≤ t)))
    ∧ (∀ (cfg : CLConfig) (st : CLState) (item : QueueItem)
        (mc gc : Option Int) (now : Int) (req : ActionRequest),
      (guard_phase cfg st item mc gc now).2 = .proceed req →
      0 < cfg.max_actions_per_hour →
      (guard_phase cfg st item mc gc now).1.action_history (clKey req)
        = some ((((st.action_history (clKey req)).getD []).filter
            (fun t => now - 3600 ≤ t)) ++ [now]))
    ∧ (∀ (cfg : CLConfig) (st : CLState) (item : QueueItem)
        (mc gc : Option Int) (now : Int) (req : ActionRequest),
      (guard_phase cfg st item mc gc now).2 = .proceed req →
      req.scale = none →
      (guard_phase cfg st item mc gc now).1.scale_history = st.scale_history)
    ∧ (∀ (cfg : CLConfig) (st : CLState) (item : QueueItem) (key : CLKey)
        (ex : ExecOutcome) (now : Int),
      ((execute_phase cfg st item key ex now).2 = .terminalSuccess →
        (execute_phase cfg st item key ex now).1
          = { st with last_action_at := updFun st.last_action_at key (some now) })
      ∧ ((execute_phase cfg st item key ex now).2 ≠ .terminalSuccess →
        (execute_phase cfg st item key ex now).1 = st)) :=
  ⟨guard_phase_cooldown_frame, guard_phase_noAction_frame,
   guard_phase_blocked_frame, guard_phase_proceed_hourly,
   guard_phase_proceed_scale_frame, execute_phase_frame⟩

/-- Witness for C8 (amended): a cooldown-skipped item leaves the whole
state unchanged, and a proceeding item has its timestamp appended to the
(empty) hourly history for its key. -/
theorem c8_guardrail_state_frame_witness :
    (guard_phase closedLoopDefaults c8SkipState c8Item none none 1000).1
      = c8SkipState
    ∧ (guard_phase closedLoopDefaults emptyCLState c8Item none none 1000).1.action_history
        ("smartops-dev", "smartops-erp-simulator", "restart") = some [1000] :=
  ⟨c8_guardrail_state_frame.1 closedLoopDefaults c8SkipState c8Item none none
     1000 (by decide),
   c8_guardrail_state_frame.2.2.2.1 closedLoopDefaults emptyCLState c8Item
     none none 1000 c2Req (by decide) (by decide)⟩

-- ---------------------------------------------------------------------
-- C7: rollout verification
-- ---------------------------------------------------------------------

/-- The desired replica count `verify_deployment_rollout` reports:
`expected_replicas` when given, else the initial read's `spec.replicas`. -/
def desiredOf (req : DeploymentVerificationRequest) (ini : DepSnapshot) :
    Option Int :=
  match req.expected_replicas with
  | some v => some v
  | none => ini.spec_replicas

/-- The result `verify_deployment_rollout` builds from a successful
rollout wait: SUCCESS with the last observed ready/available counts. -/
def successResult (req : DeploymentVerificationRequest) (ini : DepSnapshot)
    (last : LastObserved) : DeploymentVerificationResult :=
  { status := .success
    message := "Deployment rollout successful. Ready replicas: " ++
      toString last.ready_replicas ++ "/" ++
      pyStrOptInt (desiredOf req ini) ++ "."
    namespc := pyOrOptS req.namespc DEFAULT_NAMESPACE
    deployment := req.deployment
    desired_replicas := desiredOf req ini
    ready_replicas := some last.ready_replicas
    available_replicas := some last.available_replicas }

/-- The result `verify_deployment_rollout` builds when the initial
status read raises: FAILED with the exception text and no counts. -/
def failedResult (req : DeploymentVerificationRequest) (e : ApiErr) :
    DeploymentVerificationResult :=
  { status := .failed
    message := "Failed to read deployment status: " ++ e.msg
    namespc := pyOrOptS req.namespc DEFAULT_NAMESPACE
    deployment := req.deployment }

/-- The result `verify_deployment_rollout` builds from a timed-out
rollout wait: TIMED_OUT with the last observed ready/available counts. -/
def timeoutResult (req : DeploymentVerificationRequest) (ini : DepSnapshot)
    (last : LastObserved) : DeploymentVerificationResult :=
  { status := .timed_out
    message := "Timed out waiting for deployment rollout. " ++
      "Last observed ready replicas " ++ toString last.ready_replicas ++
      ", desired " ++ pyStrOptInt (desiredOf req ini) ++ "."
    namespc := pyOrOptS req.namespc DEFAULT_NAMESPACE
    deployment := req.deployment
    desired_replicas := desiredOf req ini
    ready_replicas := some last.ready_replicas
    available_replicas := some last.available_replicas }

/-- A rollout wait that returns success observed a poll satisfying the
rollout condition and reports exactly that poll's counts. -/
theorem wait_success_sound (t : Int) :
    ∀ (polls : List (Except ApiErr DepSnapshot × Int)) (last : LastObserved),
    wait_for_deployment_rollout t polls = some (.ok (.success last)) →
    ∃ s el, ((Except.ok s : Except ApiErr DepSnapshot), el) ∈ polls ∧
      rolloutDone s = true ∧ last = snapLast s := by
  intro polls
  induction polls with
  | nil => intro last h; simp [wait_for_deployment_rollout] at h
  | cons pe rest ih =>
    intro last h
    obtain ⟨read, el⟩ := pe
    cases read with
    | error e => simp [wait_for_deployment_rollout] at h
    | ok snap =>
      rw [wait_for_deployment_rollout] at h
      by_cases hd : rolloutDone snap = true
      · rw [if_pos hd] at h
        simp only [Option.some.injEq, Except.ok.injEq,
          RolloutOutcome.success.injEq] at h
        exact ⟨snap, el, by simp, hd, h.symm⟩
      · rw [if_neg hd] at h
        by_cases ht : t < el
        · rw [if_pos ht] at h
          simp at h
        · rw [if_neg ht] at h
          obtain ⟨s, el2, hmem, hdone, hlast⟩ := ih last h
          exact ⟨s, el2, by simp [hmem], hdone, hlast⟩

/-- A rollout wait that returns timeout saw a poll whose elapsed time
exceeded the timeout while the rollout condition did not yet hold, and
reports that poll's counts. -/
theorem wait_timeout_sound (t : Int) :
    ∀ (polls : List (Except ApiErr DepSnapshot × Int)) (last : LastObserved),
    wait_for_deployment_rollout t polls = some (.ok (.timeout last)) →
    ∃ s el, ((Except.ok s : Except ApiErr DepSnapshot), el) ∈ polls ∧
      rolloutDone s = false ∧ t < el ∧ last = snapLast s := by
  intro polls
  induction polls with
  | nil => intro last h; simp [wait_for_deployment_rollout] at h
  | cons pe rest ih =>
    intro last h
    obtain ⟨read, el⟩ := pe
    cases read with
    | error e => simp [wait_for_deployment_rollout] at h
    | ok snap =>
      rw [wait_for_deployment_rollout] at h
      by_cases hd : rolloutDone snap = true
      · rw [if_pos hd] at h
        simp at h
      · rw [if_neg hd] at h
        by_cases ht : t < el
        · rw [if_pos ht] at h
          simp only [Option.some.injEq, Except.ok.injEq,
            RolloutOutcome.timeout.injEq] at h
          refine ⟨snap, el, by simp, ?_, ht, h.symm⟩
          cases hnd : rolloutDone snap
          · rfl
          · exact absurd hnd hd
        · rw [if_neg ht] at h
          obtain ⟨s, el2, hmem, hdone, hts, hlast⟩ := ih last h
          exact ⟨s, el2, by simp [hmem], hdone, hts, hlast⟩

/-- An exception returned by the rollout wait came from one of its
status reads. -/
theorem wait_error_from_poll (t : Int) :
    ∀ (polls : List (Except ApiErr DepSnapshot × Int)) (e : ApiErr),
    wait_for_deployment_rollout t polls = some (.error e) →
    ∃ el, ((Except.error e : Except ApiErr DepSnapshot), el) ∈ polls := by
  intro polls
  induction polls with
  | nil => intro e h; simp [wait_for_deployment_rollout] at h
  | cons pe rest ih =>
    intro e h
    obtain ⟨read, el⟩ := pe
    cases read with
    | error e2 =>
      rw [wait_for_deployment_rollout] at h
      simp only [Option.some.injEq, Except.error.injEq] at h
      subst h
      exact ⟨el, by simp⟩
    | ok snap =>
      rw [wait_for_deployment_rollout] at h
      by_cases hd : rolloutDone snap = true
      · rw [if_pos hd] at h
        simp at h
      · rw [if_neg hd] at h
        by_cases ht : t < el
        · rw [if_pos ht] at h
          simp at h
        · rw [if_neg ht] at h
          obtain ⟨el2, hmem⟩ := ih e h
          exact ⟨el2, by simp [hmem]⟩

/-- C7 counterexample: with a healthy initial read, a fault raised while
reading status during the first poll iteration propagates out of
`verify_deployment_rollout` as an exception — the verifier does not
return a `Failed` result carrying the text, because only the initial
read sits inside its `try/except`. -/
theorem c7_poll_fault_raises :
    verify_deployment_rollout
        { namespc := some "smartops-dev", deployment := "smartops-erp-simulator"
          timeout_seconds := 60, poll_interval_seconds := 5 }
        (.ok { generation := some 3, observed_generation := some 2
               spec_replicas := some 4, updated_replicas := some 2
               ready_replicas := some 2, available_replicas := some 2 })
        [(.error { msg := "connection refused" }, 1)]
      = some (.error { msg := "connection refused" }) := by
  rfl

/-- C7 (amended): `verify_deployment_rollout` returns `Success` exactly
when a poll observes both generations with observed ≥ declared and
updated, ready and available replicas all at or above the poll's desired
count (conjuncts 1-3); it returns `TimedOut` when a poll's elapsed time
exceeds the timeout while that condition does not hold, again with the
last-observed counts (conjuncts 4-5); a fault during the initial status
read yields a `Failed` result carrying the exception text (conjunct 6);
but a fault while polling propagates as an exception out of the
verifier instead of a `Failed` result (conjunct 7). -/
theorem c7_rollout_verification :
    (∀ s, rolloutDone s = true ↔
      ∃ og g, s.observed_generation = some og ∧ s.generation = some g ∧
        g ≤ og ∧ s.spec_replicas.getD 0 ≤ s.updated_replicas.getD 0 ∧
        s.spec_replicas.getD 0 ≤ s.ready_replicas.getD 0 ∧
        s.spec_replicas.getD 0 ≤ s.available_replicas.getD 0)
    ∧ (∀ (t : Int) (polls : List (Except ApiErr DepSnapshot × Int))
        (last : LastObserved),
      wait_for_deployment_rollout t polls = some (.ok (.success last)) →
      ∃ s el, ((Except.ok s : Except ApiErr DepSnapshot), el) ∈ polls ∧
        rolloutDone s = true ∧ last = snapLast s)
    ∧ (∀ (req : DeploymentVerificationRequest) (ini : DepSnapshot)
        (polls : List (Except ApiErr DepSnapshot × Int)) (last : LastObserved),
      wait_for_deployment_rollout req.timeout_seconds polls
          = some (.ok (.success last)) →
      verify_deployment_rollout req (.ok ini) polls
        = some (.ok (successResult req ini last)))
    ∧ (∀ (t : Int) (polls : List (Except ApiErr DepSnapshot × Int))
        (last : LastObserved),
      wait_for_deployment_rollout t polls = some (.ok (.timeout last)) →
      ∃ s el, ((Except.ok s : Except ApiErr DepSnapshot), el) ∈ polls ∧
        rolloutDone s = false ∧ t < el ∧ last = snapLast s)
    ∧ (∀ (req : DeploymentVerificationRequest) (ini : DepSnapshot)
        (polls : List (Except ApiErr DepSnapshot × Int)) (last : LastObserved),
      wait_for_deployment_rollout req.timeout_seconds polls
          = some (.ok (.timeout last)) →
      verify_deployment_rollout req (.ok ini) polls
        = some (.ok (timeoutResult req ini last)))
    ∧ (∀ (req : DeploymentVerificationRequest) (e : ApiErr)
        (polls : List (Except ApiErr DepSnapshot × Int)),
      verify_deployment_rollout req (.error e) polls
        = some (.ok (failedResult req e)))
    ∧ (∀ (req : DeploymentVerificationRequest) (ini : DepSnapshot)
        (polls : List (Except ApiErr DepSnapshot × Int)) (e : ApiErr),
      wait_for_deployment_rollout req.timeout_seconds polls
          = some (.error e) →
      verify_deployment_rollout req (.ok ini) polls = some (.error e)
      ∧ ∃ el, ((Except.error e : Except ApiErr DepSnapshot), el) ∈ polls) := by
  refine ⟨?_, wait_success_sound, ?_, wait_timeout_sound, ?_, ?_, ?_⟩
  · intro s
    unfold rolloutDone
    constructor
    · intro h
      split at h
      · rename_i og g hog hg
        simp only [Bool.and_eq_true, decide_eq_true_eq] at h
        exact ⟨og, g, hog, hg, h.1.1.1, h.1.1.2, h.1.2, h.2⟩
      · simp at h
    · rintro ⟨og, g, hog, hg, h1, h2, h3, h4⟩
      rw [hog, hg]
      simp [h1, h2, h3, h4]
  · intro req ini polls last hw
    simp [verify_deployment_rollout, hw, successResult, desiredOf]
  · intro req ini polls last hw
    simp [verify_deployment_rollout, hw, timeoutResult, desiredOf]
  · intro req e polls
    simp [verify_deployment_rollout, failedResult]
  · intro req ini polls e hw
    exact ⟨by simp [verify_deployment_rollout, hw],
      wait_error_from_poll req.timeout_seconds polls e hw⟩

/-- A snapshot that does not yet satisfy the rollout condition. -/
def c7SnapPending : DepSnapshot :=
  { generation := some 3, observed_generation := some 2
    spec_replicas := some 4, updated_replicas := some 2
    ready_replicas := some 2, available_replicas := some 2 }

/-- A snapshot satisfying the rollout condition: generations caught up
and 4/4 replicas updated, ready and available. -/
def c7SnapDone : DepSnapshot :=
  { generation := some 3, observed_generation := some 3
    spec_replicas := some 4, updated_replicas := some 4
    ready_replicas := some 4, available_replicas := some 4 }

/-- The verification request used in the C7 witness. -/
def c7Req : DeploymentVerificationRequest :=
  { namespc := some "smartops-dev", deployment := "smartops-erp-simulator"
    timeout_seconds := 60, poll_interval_seconds := 5 }

/-- Witness for C7 (amended): a trace whose second poll satisfies the
rollout condition verifies with SUCCESS and the last-observed counts,
and a failing initial read yields FAILED with the exception text. -/
theorem c7_rollout_verification_witness :
    verify_deployment_rollout c7Req (.ok c7SnapPending)
        [(.ok c7SnapPending, 1), (.ok c7SnapDone, 6)]
      = some (.ok (successResult c7Req c7SnapPending (snapLast c7SnapDone)))
    ∧ verify_deployment_rollout c7Req (.error { msg := "boom" }) []
      = some (.ok (failedResult c7Req { msg := "boom" })) :=
  ⟨c7_rollout_verification.2.2.1 c7Req c7SnapPending
     [(.ok c7SnapPending, 1), (.ok c7SnapDone, 6)] (snapLast c7SnapDone)
     (by decide),
   c7_rollout_verification.2.2.2.2.2.1 c7Req { msg := "boom" } []⟩

end SmartOps
